import Mathlib

/-!
Verification of the iscan-backend document-processing pipeline
(`app/langgraph/document_processor.py` and
`app/process_services/huawei_processor.py`).

Python values are shallowly embedded as `PyVal` (floats are modelled as
exact rationals; the float values arising in the claims involve only
short decimal literals, whose arithmetic here is addition of exactly
representable quantities). Strings are handled as `List Char` internally.
External capabilities (PDF rendering/text extraction, the LLM call) are
modelled as an explicit environment of `Except`-valued oracles, mirroring
the spec's treatment of them as black boxes.
-/

/-- Exact decimal number `m / 10 ^ e`, the model of Python floats here:
every float the embedded code produces comes from parsing a decimal
literal, negation, scaling by a power of ten or addition, so all of them
are exact decimals and none of the claims depends on binary rounding.
Values are kept canonical (`e` minimal) by the smart constructor
`Dec.norm`, so structural equality coincides with numeric equality. -/
structure Dec where
  m : Int
  e : Nat
  deriving DecidableEq

/-- Canonicalize `m / 10 ^ e` by stripping factors of ten. -/
def Dec.norm (m : Int) : Nat → Dec
  | 0 => ⟨m, 0⟩
  | e + 1 => if m % 10 = 0 then Dec.norm (m / 10) e else ⟨m, e + 1⟩

/-- The decimal value of an integer. -/
def Dec.ofInt (n : Int) : Dec := ⟨n, 0⟩

/-- Exact addition of decimals (Python float `+` on these values). -/
def Dec.add (a b : Dec) : Dec :=
  let e := max a.e b.e
  Dec.norm (a.m * ((10 ^ (e - a.e) : ℕ) : ℤ) + b.m * ((10 ^ (e - b.e) : ℕ) : ℤ)) e

/-- Multiply or divide by `10 ^ k` (scientific-notation exponents). -/
def Dec.applyExp (a : Dec) (eneg : Bool) (k : Nat) : Dec :=
  if eneg then Dec.norm a.m (a.e + k)
  else Dec.norm (a.m * ((10 ^ k : ℕ) : ℤ)) a.e

/-- The rational value of a decimal (for reading the statements). -/
def Dec.toRat (a : Dec) : ℚ := (a.m : ℚ) / ((10 ^ a.e : ℕ) : ℚ)

/-- Embedding of the Python values flowing through the pipeline.
`float` carries an exact decimal (see `Dec`); `dict` is an
insertion-ordered association list with string keys, matching Python
dict semantics for the string-keyed mappings used here. -/
inductive PyVal where
  | none : PyVal
  | bool : Bool → PyVal
  | int : Int → PyVal
  | float : Dec → PyVal
  | str : String → PyVal
  | list : List PyVal → PyVal
  | dict : List (String × PyVal) → PyVal

mutual

def PyVal.decEq : (a b : PyVal) → Decidable (a = b)
  | .none, .none => isTrue rfl
  | .none, .bool _ => isFalse (fun h => nomatch h)
  | .none, .int _ => isFalse (fun h => nomatch h)
  | .none, .float _ => isFalse (fun h => nomatch h)
  | .none, .str _ => isFalse (fun h => nomatch h)
  | .none, .list _ => isFalse (fun h => nomatch h)
  | .none, .dict _ => isFalse (fun h => nomatch h)
  | .bool _, .none => isFalse (fun h => nomatch h)
  | .bool x, .bool y =>
      if h : x = y then isTrue (by rw [h])
      else isFalse (fun hh => h (by injection hh))
  | .bool _, .int _ => isFalse (fun h => nomatch h)
  | .bool _, .float _ => isFalse (fun h => nomatch h)
  | .bool _, .str _ => isFalse (fun h => nomatch h)
  | .bool _, .list _ => isFalse (fun h => nomatch h)
  | .bool _, .dict _ => isFalse (fun h => nomatch h)
  | .int _, .none => isFalse (fun h => nomatch h)
  | .int _, .bool _ => isFalse (fun h => nomatch h)
  | .int x, .int y =>
      if h : x = y then isTrue (by rw [h])
      else isFalse (fun hh => h (by injection hh))
  | .int _, .float _ => isFalse (fun h => nomatch h)
  | .int _, .str _ => isFalse (fun h => nomatch h)
  | .int _, .list _ => isFalse (fun h => nomatch h)
  | .int _, .dict _ => isFalse (fun h => nomatch h)
  | .float _, .none => isFalse (fun h => nomatch h)
  | .float _, .bool _ => isFalse (fun h => nomatch h)
  | .float _, .int _ => isFalse (fun h => nomatch h)
  | .float x, .float y =>
      if h : x = y then isTrue (by rw [h])
      else isFalse (fun hh => h (by injection hh))
  | .float _, .str _ => isFalse (fun h => nomatch h)
  | .float _, .list _ => isFalse (fun h => nomatch h)
  | .float _, .dict _ => isFalse (fun h => nomatch h)
  | .str _, .none => isFalse (fun h => nomatch h)
  | .str _, .bool _ => isFalse (fun h => nomatch h)
  | .str _, .int _ => isFalse (fun h => nomatch h)
  | .str _, .float _ => isFalse (fun h => nomatch h)
  | .str x, .str y =>
      if h : x = y then isTrue (by rw [h])
      else isFalse (fun hh => h (by injection hh))
  | .str _, .list _ => isFalse (fun h => nomatch h)
  | .str _, .dict _ => isFalse (fun h => nomatch h)
  | .list _, .none => isFalse (fun h => nomatch h)
  | .list _, .bool _ => isFalse (fun h => nomatch h)
  | .list _, .int _ => isFalse (fun h => nomatch h)
  | .list _, .float _ => isFalse (fun h => nomatch h)
  | .list _, .str _ => isFalse (fun h => nomatch h)
  | .list x, .list y =>
      match PyVal.decEqList x y with
      | isTrue h => isTrue (by rw [h])
      | isFalse h => isFalse (fun hh => h (by injection hh))
  | .list _, .dict _ => isFalse (fun h => nomatch h)
  | .dict _, .none => isFalse (fun h => nomatch h)
  | .dict _, .bool _ => isFalse (fun h => nomatch h)
  | .dict _, .int _ => isFalse (fun h => nomatch h)
  | .dict _, .float _ => isFalse (fun h => nomatch h)
  | .dict _, .str _ => isFalse (fun h => nomatch h)
  | .dict _, .list _ => isFalse (fun h => nomatch h)
  | .dict x, .dict y =>
      match PyVal.decEqDictList x y with
      | isTrue h => isTrue (by rw [h])
      | isFalse h => isFalse (fun hh => h (by injection hh))

def PyVal.decEqList : (a b : List PyVal) → Decidable (a = b)
  | [], [] => isTrue rfl
  | [], _ :: _ => isFalse (fun h => nomatch h)
  | _ :: _, [] => isFalse (fun h => nomatch h)
  | x :: xs, y :: ys =>
      match PyVal.decEq x y with
      | isFalse h => isFalse (fun hh => h (by injection hh))
      | isTrue h1 =>
          match PyVal.decEqList xs ys with
          | isTrue h2 => isTrue (by rw [h1, h2])
          | isFalse h2 => isFalse (fun hh => h2 (by injection hh))

def PyVal.decEqDictList :
    (a b : List (String × PyVal)) → Decidable (a = b)
  | [], [] => isTrue rfl
  | [], _ :: _ => isFalse (fun h => nomatch h)
  | _ :: _, [] => isFalse (fun h => nomatch h)
  | (k1, v1) :: xs, (k2, v2) :: ys =>
      if hk : k1 = k2 then
          match PyVal.decEq v1 v2 with
          | isFalse h => isFalse (fun hh => by
              injection hh with h1 h2
              exact h (congrArg Prod.snd h1))
          | isTrue hv =>
              match PyVal.decEqDictList xs ys with
              | isTrue h2 => isTrue (by rw [hk, hv, h2])
              | isFalse h2 => isFalse (fun hh => h2 (by injection hh))
      else isFalse (fun hh => by
          injection hh with h1 h2
          exact hk (congrArg Prod.fst h1))

end

instance : DecidableEq PyVal := PyVal.decEq

namespace PyDict

/-- Python `d[k]` / `d.get(k)` lookup on an insertion-ordered dict. -/
def get (d : List (String × PyVal)) (k : String) : Option PyVal :=
  match d with
  | [] => Option.none
  | (k0, v) :: rest => if k0 = k then some v else get rest k

/-- Python `d[k] = v`: update in place if the key exists, else append. -/
def set (d : List (String × PyVal)) (k : String) (v : PyVal) :
    List (String × PyVal) :=
  match d with
  | [] => [(k, v)]
  | (k0, v0) :: rest =>
      if k0 = k then (k0, v) :: rest else (k0, v0) :: set rest k v

theorem get_set_self (d : List (String × PyVal)) (k : String) (v : PyVal) :
    get (set d k v) k = some v := by
  induction d with
  | nil => simp [get, set]
  | cons h t ih =>
      obtain ⟨k0, v0⟩ := h
      by_cases hk : k0 = k <;> simp [get, set, hk, ih]

theorem get_set_ne (d : List (String × PyVal)) (k k' : String) (v : PyVal)
    (h : k ≠ k') : get (set d k v) k' = get d k' := by
  induction d with
  | nil => simp [get, set, h]
  | cons hd t ih =>
      obtain ⟨k0, v0⟩ := hd
      by_cases hk : k0 = k <;> by_cases hk' : k0 = k' <;>
        simp_all [get, set]

end PyDict

/-- Python truthiness (`bool(v)`) for the embedded values. -/
def pyTruthy : PyVal → Bool
  | .none => false
  | .bool b => b
  | .int n => n ≠ 0
  | .float q => q.m ≠ 0
  | .str s => s ≠ ""
  | .list l => ¬ l.isEmpty
  | .dict d => ¬ d.isEmpty

/-- Whether a value is a mapping. -/
def isPyDict : PyVal → Bool
  | .dict _ => true
  | _ => false

namespace PyStr

/-- ASCII whitespace as stripped by Python `str.strip()` / `float()`
(the Unicode additions never occur in the embedded code's inputs). -/
def isPyWs (c : Char) : Bool :=
  c = ' ' ∨ c = '\t' ∨ c = '\n' ∨ c = '\r' ∨ c = '\x0b' ∨ c = '\x0c'

/-- Python `str.strip()`. -/
def stripChars (l : List Char) : List Char :=
  ((l.dropWhile isPyWs).reverse.dropWhile isPyWs).reverse

/-- Worker for `replaceL`; the fuel starts at the list length and tracks
it exactly, so the fuel-exhausted branch is unreachable (it returns the
remaining input, which also keeps the identity lemmas uniform). -/
def replaceGo (pat rep : List Char) : Nat → List Char → List Char
  | 0, l => l
  | _ + 1, [] => []
  | fuel + 1, c :: t =>
    match pat with
    | [] => c :: t
    | p :: ps =>
      if (p :: ps).isPrefixOf (c :: t) then
        rep ++ replaceGo pat rep fuel (t.drop ps.length)
      else
        c :: replaceGo pat rep fuel t

/-- Python `str.replace(pat, rep)`: replace every non-overlapping
occurrence, scanning left to right. The embedded code never uses an
empty pattern (treated as identity here). -/
def replaceL (pat rep l : List Char) : List Char :=
  replaceGo pat rep l.length l

/-- Index of the first occurrence of `pat` (Python `str.find`,
restricted to found/not-found as the code only branches on that). -/
def subIdx (pat : List Char) : List Char → Option Nat
  | [] => if pat.isEmpty then some 0 else Option.none
  | l@(_ :: t) =>
      if pat.isPrefixOf l then some 0
      else (subIdx pat t).map (· + 1)

/-- Python `pat in s` substring test. -/
def containsSub (pat l : List Char) : Bool :=
  (subIdx pat l).isSome

/-- Value of a decimal digit character. -/
def digitVal (c : Char) : Nat := c.toNat - 48

/-- Value of a string of decimal digits. -/
def digitsToNat (l : List Char) : Nat :=
  l.foldl (fun a c => a * 10 + digitVal c) 0

/-- Leading `-`/`+` sign of a numeric literal. -/
def readSign (l : List Char) : Bool × List Char :=
  match l with
  | c :: t => if c = '-' then (true, t) else if c = '+' then (false, t) else (false, l)
  | [] => (false, [])

/-- The decimal value of an integer-part/fraction-part digit pair. -/
def decOfDigits (neg : Bool) (ip fp : List Char) : Dec :=
  let m : Int := ((digitsToNat ip * 10 ^ fp.length + digitsToNat fp : ℕ) : ℤ)
  Dec.norm (if neg then -m else m) fp.length

/-- Optional exponent suffix of a Python float literal; anything left
over after it makes the whole literal invalid. -/
def pyExpPart (mant : Dec) (l : List Char) : Option Dec :=
  match l with
  | [] => some mant
  | e :: r =>
    if e = 'e' ∨ e = 'E' then
      let sn := readSign r
      let ed := sn.2.takeWhile Char.isDigit
      let r2 := sn.2.dropWhile Char.isDigit
      if ed.isEmpty ∨ ¬ r2.isEmpty then Option.none
      else some (mant.applyExp sn.1 (digitsToNat ed))
    else Option.none

/-- Core of Python `float(s)` on an already-stripped character list:
`[sign] (digits [. digits] | . digits) [(e|E) [sign] digits]`.
Digit-group underscores, `inf` and `nan` are accepted by Python but
never reachable from the embedded call sites and are not modelled. -/
def pyFloatCore (l : List Char) : Option Dec :=
  let sn := readSign l
  let ip := sn.2.takeWhile Char.isDigit
  let r1 := sn.2.dropWhile Char.isDigit
  match r1 with
  | '.' :: r2 =>
      let fp := r2.takeWhile Char.isDigit
      let r3 := r2.dropWhile Char.isDigit
      if ip.isEmpty ∧ fp.isEmpty then Option.none
      else pyExpPart (decOfDigits sn.1 ip fp) r3
  | _ =>
      if ip.isEmpty then Option.none
      else pyExpPart (decOfDigits sn.1 ip []) r1

/-- Python `float(s)` for a character list (strips whitespace). -/
def pyFloatL (l : List Char) : Option Dec :=
  pyFloatCore (stripChars l)

/-- Python `float(s)`. -/
def pyFloat (s : String) : Option Dec :=
  pyFloatL s.toList

/-- Character class of the regex `[\d.]`. -/
def isNumRunChar (c : Char) : Bool := c.isDigit || c = '.'

/-- Model of `re.search(r'[\d.]+', s)`: the leftmost maximal run of
digits and dots, if any. -/
def searchNumRun (l : List Char) : Option (List Char) :=
  match l.dropWhile (fun c => ! isNumRunChar c) with
  | [] => Option.none
  | rest => some (rest.takeWhile isNumRunChar)

end PyStr

open PyStr

example : pyFloat "2.5" = some ⟨25, 1⟩ := by decide
example : pyFloat " 123456 " = some ⟨123456, 0⟩ := by decide
example : pyFloat "2,5" = Option.none := by decide
example : pyFloat "1 234" = Option.none := by decide
example : pyFloat "" = Option.none := by decide
example : pyFloat "-1e2" = some ⟨-100, 0⟩ := by decide
example : pyFloat "1e-2" = some ⟨1, 2⟩ := by decide
example : pyFloat "12.3.4" = Option.none := by decide
example : pyFloat "2.50" = some ⟨25, 1⟩ := by decide
example : replaceL ",".toList ".".toList "2,5".toList = "2.5".toList := by decide
example : searchNumRun "ab12.5c9".toList = some "12.5".toList := by decide

/-- Python `str()` of a float holding an exact decimal: digits with a
decimal point, `.0` appended for integral values (Python's shortest
round-trip repr coincides with this for the short decimals arising
here; the large-magnitude switch to exponent notation is never
reached by the embedded call sites). -/
def Dec.render (a : Dec) : String :=
  if a.e = 0 then toString a.m ++ ".0"
  else
    let ds := (toString a.m.natAbs).toList
    let ds := if ds.length ≤ a.e then List.replicate (a.e + 1 - ds.length) '0' ++ ds else ds
    (if a.m < 0 then "-" else "") ++
      String.mk (ds.take (ds.length - a.e)) ++ "." ++
      String.mk (ds.drop (ds.length - a.e))

example : Dec.render ⟨25, 1⟩ = "2.5" := by decide
example : Dec.render ⟨-5, 1⟩ = "-0.5" := by decide
example : Dec.render ⟨100, 0⟩ = "100.0" := by decide

mutual

/-- Python `str(v)` (containers fall back to `repr`, as in Python;
string escaping inside `repr` of strings is not modelled — no claim
inspects reprs of strings containing quotes). -/
def pyStr : PyVal → String
  | .none => "None"
  | .bool b => if b then "True" else "False"
  | .int n => toString n
  | .float d => d.render
  | .str s => s
  | .list l => "[" ++ pyReprList l ++ "]"
  | .dict d => "\x7b" ++ pyReprDict d ++ "\x7d"

/-- Python `repr(v)`. -/
def pyRepr : PyVal → String
  | .none => "None"
  | .bool b => if b then "True" else "False"
  | .int n => toString n
  | .float d => d.render
  | .str s => "'" ++ s ++ "'"
  | .list l => "[" ++ pyReprList l ++ "]"
  | .dict d => "\x7b" ++ pyReprDict d ++ "\x7d"

def pyReprList : List PyVal → String
  | [] => ""
  | [v] => pyRepr v
  | v :: rest => pyRepr v ++ ", " ++ pyReprList rest

def pyReprDict : List (String × PyVal) → String
  | [] => ""
  | [(k, v)] => "'" ++ k ++ "': " ++ pyRepr v
  | (k, v) :: rest => "'" ++ k ++ "': " ++ pyRepr v ++ ", " ++ pyReprDict rest

end

/-- Python's type name of a value (for exception messages). -/
def pyTypeName : PyVal → String
  | .none => "NoneType"
  | .bool _ => "bool"
  | .int _ => "int"
  | .float _ => "float"
  | .str _ => "str"
  | .list _ => "list"
  | .dict _ => "dict"

namespace PyJson

open PyStr

/-- JSON inter-token whitespace. -/
def isJWs (c : Char) : Bool := c = ' ' ∨ c = '\t' ∨ c = '\n' ∨ c = '\r'

def skipJWs (l : List Char) : List Char := l.dropWhile isJWs

/-- Value of a hexadecimal digit. -/
def hexVal (c : Char) : Option Nat :=
  if '0' ≤ c ∧ c ≤ '9' then some (c.toNat - 48)
  else if 'a' ≤ c ∧ c ≤ 'f' then some (c.toNat - 87)
  else if 'A' ≤ c ∧ c ≤ 'F' then some (c.toNat - 55)
  else Option.none

/-- Single-character JSON string escapes. -/
def escChar : Char → Option Char
  | '"' => some '"'
  | '\\' => some '\\'
  | '/' => some '/'
  | 'b' => some '\x08'
  | 'f' => some '\x0c'
  | 'n' => some '\n'
  | 'r' => some '\r'
  | 't' => some '\t'
  | _ => Option.none

/-- Body of a JSON string after the opening quote: content and rest
after the closing quote. Unescaped control characters are rejected
(Python's strict mode); surrogate-pair recombination of  u-escapes is
not modelled (never exercised by the claims). -/
def parseJStr : List Char → Option (List Char × List Char)
  | [] => Option.none
  | c :: t =>
    if c = '"' then some ([], t)
    else if c = '\\' then
      match t with
      | 'u' :: h1 :: h2 :: h3 :: h4 :: t3 =>
        match hexVal h1, hexVal h2, hexVal h3, hexVal h4 with
        | some a, some b, some c2, some d =>
            (parseJStr t3).map
              (fun p => (Char.ofNat (((a * 16 + b) * 16 + c2) * 16 + d) :: p.1, p.2))
        | _, _, _, _ => Option.none
      | e :: t2 =>
        match escChar e with
        | some ec => (parseJStr t2).map (fun p => (ec :: p.1, p.2))
        | Option.none => Option.none
      | [] => Option.none
    else if c.toNat < 32 then Option.none
    else (parseJStr t).map (fun p => (c :: p.1, p.2))

/-- Sign and integer part of a JSON number (leading zeros rejected). -/
def parseJInt (l : List Char) : Option (Bool × List Char × List Char) :=
  let sn := match l with
    | '-' :: t => (true, t)
    | _ => (false, l)
  match sn.2 with
  | '0' :: r => some (sn.1, ['0'], r)
  | c :: r =>
      if c.isDigit then
        some (sn.1, c :: r.takeWhile Char.isDigit, r.dropWhile Char.isDigit)
      else Option.none
  | [] => Option.none

/-- Optional exponent of a JSON number. -/
def parseJExpOpt (l : List Char) : Option (Option (Bool × Nat) × List Char) :=
  match l with
  | e :: r =>
    if e = 'e' ∨ e = 'E' then
      let sn := readSign r
      let ed := sn.2.takeWhile Char.isDigit
      if ed.isEmpty then Option.none
      else some (some (sn.1, digitsToNat ed), sn.2.dropWhile Char.isDigit)
    else some (Option.none, l)
  | [] => some (Option.none, [])

/-- The signed integer value of a digit run. -/
def intOfDigits (neg : Bool) (ds : List Char) : Int :=
  if neg then -(digitsToNat ds : Int) else (digitsToNat ds : Int)

/-- A JSON number: Python yields `int` when there is no fraction and no
exponent, `float` otherwise (exact decimals here; `NaN`/`Infinity`
extensions are never exercised and not modelled). -/
def parseJNum (l : List Char) : Option (PyVal × List Char) :=
  match parseJInt l with
  | some (neg, ip, r1) =>
    match r1 with
    | '.' :: r2 =>
      let fp := r2.takeWhile Char.isDigit
      let r3 := r2.dropWhile Char.isDigit
      if fp.isEmpty then Option.none
      else
        match parseJExpOpt r3 with
        | some (Option.none, rest) => some (.float (decOfDigits neg ip fp), rest)
        | some (some (es, ev), rest) =>
            some (.float ((decOfDigits neg ip fp).applyExp es ev), rest)
        | Option.none => Option.none
    | _ =>
      match parseJExpOpt r1 with
      | some (Option.none, rest) => some (.int (intOfDigits neg ip), rest)
      | some (some (es, ev), rest) =>
          some (.float ((decOfDigits neg ip []).applyExp es ev), rest)
      | Option.none => Option.none
  | Option.none => Option.none

mutual

/-- A JSON value, by recursive descent; the fuel starts at one more
than the input length and each call consumes at least one character,
so exhaustion is unreachable from `jsonLoads`. -/
def parseJVal : Nat → List Char → Option (PyVal × List Char)
  | 0, _ => Option.none
  | fuel + 1, l =>
    match l with
    | [] => Option.none
    | c :: t =>
      if c = '"' then
        (parseJStr t).map (fun p => (.str (String.mk p.1), p.2))
      else if c = '[' then
        match skipJWs t with
        | ']' :: r => some (.list [], r)
        | t1 =>
          match parseJVal fuel t1 with
          | some (v, r) => parseJArrTail fuel [v] (skipJWs r)
          | Option.none => Option.none
      else if c = '\x7b' then
        match skipJWs t with
        | '\x7d' :: r => some (.dict [], r)
        | t1 => parseJObjEntry fuel [] t1
      else if c = 't' then
        if "rue".toList.isPrefixOf t then some (.bool true, t.drop 3) else Option.none
      else if c = 'f' then
        if "alse".toList.isPrefixOf t then some (.bool false, t.drop 4) else Option.none
      else if c = 'n' then
        if "ull".toList.isPrefixOf t then some (.none, t.drop 3) else Option.none
      else parseJNum l

/-- Elements of an array after the first one. -/
def parseJArrTail : Nat → List PyVal → List Char → Option (PyVal × List Char)
  | 0, _, _ => Option.none
  | fuel + 1, acc, l =>
    match l with
    | ',' :: r =>
      match parseJVal fuel (skipJWs r) with
      | some (v, r2) => parseJArrTail fuel (acc ++ [v]) (skipJWs r2)
      | Option.none => Option.none
    | ']' :: r => some (.list acc, r)
    | _ => Option.none

/-- Key-value pairs of an object; duplicate keys overwrite, as in
Python's dict building. -/
def parseJObjEntry : Nat → List (String × PyVal) → List Char → Option (PyVal × List Char)
  | 0, _, _ => Option.none
  | fuel + 1, acc, l =>
    match l with
    | '"' :: t =>
      match parseJStr t with
      | some (ks, r) =>
        match skipJWs r with
        | ':' :: r2 =>
          match parseJVal fuel (skipJWs r2) with
          | some (v, r3) =>
            match skipJWs r3 with
            | ',' :: r4 => parseJObjEntry fuel (PyDict.set acc (String.mk ks) v) (skipJWs r4)
            | '\x7d' :: r4 => some (.dict (PyDict.set acc (String.mk ks) v), r4)
            | _ => Option.none
          | Option.none => Option.none
        | _ => Option.none
      | Option.none => Option.none
    | _ => Option.none

end

/-- Python `json.loads(s)`: a single JSON value with only whitespace
around it; `None` models a `json.JSONDecodeError`. -/
def jsonLoads (s : String) : Option PyVal :=
  let l := skipJWs s.toList
  match parseJVal (l.length + 1) l with
  | some (v, rest) => if (skipJWs rest).isEmpty then some v else Option.none
  | Option.none => Option.none

end PyJson

open PyJson

example : jsonLoads "42" = some (.int 42) := by decide
example : jsonLoads " -1.25e1 " = some (.float ⟨-125, 1⟩) := by decide
example : jsonLoads "[1, \"a\", null]" = some (.list [.int 1, .str "a", PyVal.none]) := by decide
example : jsonLoads "\x7b\"a\": 1, \"b\": [true]\x7d" =
    some (.dict [("a", .int 1), ("b", .list [.bool true])]) := by decide
example : jsonLoads "01" = Option.none := by decide
example : jsonLoads "bad" = Option.none := by decide
example : jsonLoads "\x7b\"a\": 1" = Option.none := by decide
example : jsonLoads "\"a\\nb\"" = some (.str "a\nb") := by decide

namespace DocProcessor

open PyStr PyJson

/-- The fixed parsing-error message of the sentinel mapping. -/
def parsingErrorMsg : String := "Failed to extract valid JSON from ChatGPT response"

/-- The sentinel mapping returned when every parse strategy failed;
`raw_response` carries the (by then stripped) input text. -/
def sentinelOf (stripped : List Char) : PyVal :=
  .dict [("raw_response", .str (String.mk stripped)),
         ("parsing_error", .str parsingErrorMsg)]

def jsonFenceMark : List Char := "```json".toList

def fenceMark : List Char := "```".toList

/-- Interior of the first json-flavoured fenced block, that is
`content[content.find("```json")+7 : content.find("```", start)]`;
it is `None` when the closing fence is missing. -/
def fencedJsonInner (c : List Char) : Option (List Char) :=
  match subIdx jsonFenceMark c with
  | some i =>
    let rest := c.drop (i + 7)
    match subIdx fenceMark rest with
    | some j => some (rest.take j)
    | Option.none => Option.none
  | Option.none => Option.none

/-- Interior of the first generic fenced block. -/
def fencedAnyInner (c : List Char) : Option (List Char) :=
  match subIdx fenceMark c with
  | some i =>
    let rest := c.drop (i + 3)
    match subIdx fenceMark rest with
    | some j => some (rest.take j)
    | Option.none => Option.none
  | Option.none => Option.none

/-- Index of the last occurrence of a character. -/
def lastIdxOf (ch : Char) (c : List Char) : Option Nat :=
  (c.reverse.findIdx? (· = ch)).map (fun k => c.length - 1 - k)

/-- Model of the greedy brace-span search, that is `re.search` with
pattern `(\x7b.*\x7d)` under `re.DOTALL`: the regex is
greedy, so the match runs from the first opening brace that has any
closing brace after it to the last closing brace of the text. -/
def braceSpan (c : List Char) : Option (List Char) :=
  match c.findIdx? (· = '\x7b'), lastIdxOf '\x7d' c with
  | some i, some j =>
      if i < j then some ((c.drop i).take (j - i + 1)) else Option.none
  | _, _ => Option.none

/-- Embedding of `parse_chatgpt_response` (document_processor.py,
lines 91-135):
direct JSON parse, else — on the stripped text — exactly one of the
```json block, the generic ``` block or the greedy brace span,
falling back to the sentinel mapping. -/
def parse_chatgpt_response (content : String) : PyVal :=
  match jsonLoads content with
  | some v => v
  | Option.none =>
    let c := stripChars content.toList
    if containsSub jsonFenceMark c then
      match fencedJsonInner c with
      | some inner =>
        match jsonLoads (String.mk (stripChars inner)) with
        | some v => v
        | Option.none => sentinelOf c
      | Option.none => sentinelOf c
    else if containsSub fenceMark c then
      match fencedAnyInner c with
      | some inner =>
        match jsonLoads (String.mk (stripChars inner)) with
        | some v => v
        | Option.none => sentinelOf c
      | Option.none => sentinelOf c
    else
      match braceSpan c with
      | some sp =>
        match jsonLoads (String.mk sp) with
        | some v => v
        | Option.none => sentinelOf c
      | Option.none => sentinelOf c

end DocProcessor

open DocProcessor

example : parse_chatgpt_response "\x7b\"a\": 1\x7d" = .dict [("a", .int 1)] := by decide
example : parse_chatgpt_response "42" = .int 42 := by decide
example : parse_chatgpt_response "x ```json\n\x7b\"k\": 2\x7d\n``` y" =
    .dict [("k", .int 2)] := by decide
example : parse_chatgpt_response "see ```\x7b\"k\": 3\x7d``` end" =
    .dict [("k", .int 3)] := by decide
example : parse_chatgpt_response "text \x7b\"k\": 4\x7d tail" =
    .dict [("k", .int 4)] := by decide
example : parse_chatgpt_response "no json here" =
    sentinelOf "no json here".toList := by decide

/-- Python builtin `float(v)` on a value; `Option.none` models the
`TypeError`/`ValueError` the call sites catch. `isinstance(True, int)`
holds in Python, so booleans convert. -/
def pyFloatOfVal : PyVal → Option Dec
  | .bool b => some (if b then Dec.ofInt 1 else Dec.ofInt 0)
  | .int n => some (Dec.ofInt n)
  | .float d => some d
  | .str s => PyStr.pyFloat s
  | _ => Option.none

namespace Huawei

open PyStr

/-- The string-cleaning chain of `_extract_numeric_value`
(huawei_processor.py, lines 124-129): currency-symbol removal, comma
and space deletion, strip, then the by-then-vacuous comma-to-dot
replacement. -/
def extractNumericCleaned (l : List Char) : List Char :=
  replaceL ",".toList ".".toList
    (stripChars
      (replaceL " ".toList "".toList
        (replaceL ",".toList "".toList
          (replaceL "$".toList "".toList
            (replaceL "руб".toList "".toList
              (replaceL "₽".toList "".toList l))))))

/-- Embedding of `_extract_numeric_value` (huawei_processor.py, lines
116-139): numbers (including booleans, which are ints in Python)
convert directly; strings are cleaned, searched with `[\d.]+` and
parsed with `float`; everything else and every failed parse yields
0.0 (`Option.bind`/`getD` render the regex-miss and `ValueError`
fallbacks). -/
def extractNumericValue : PyVal → Dec
  | .bool b => if b then Dec.ofInt 1 else Dec.ofInt 0
  | .int n => Dec.ofInt n
  | .float d => d
  | .str s =>
      ((searchNumRun (extractNumericCleaned s.toList)).bind pyFloatL).getD
        (Dec.ofInt 0)
  | _ => Dec.ofInt 0

/-- Embedding of `_process_act_item` (huawei_processor.py, lines
96-114): numeric
sibling fields for `unit_price`/`total_cost` via
`_extract_numeric_value`, and for `quantity` via plain `float()` with
a 0.0 fallback. -/
def processActItem (item : List (String × PyVal)) : List (String × PyVal) :=
  let p1 :=
    match PyDict.get item "unit_price" with
    | some v => PyDict.set item "unit_price_numeric" (.float (extractNumericValue v))
    | Option.none => item
  let p2 :=
    match PyDict.get p1 "total_cost" with
    | some v => PyDict.set p1 "total_cost_numeric" (.float (extractNumericValue v))
    | Option.none => p1
  match PyDict.get p2 "quantity" with
  | some v =>
      PyDict.set p2 "quantity_numeric" (.float ((pyFloatOfVal v).getD (Dec.ofInt 0)))
  | Option.none => p2

end Huawei

namespace DocProcessor

/-- Lookup `item.get(k)` on values that may not be mappings (guarded by
`isinstance` checks at every use in the source). -/
def pageGet? (p : PyVal) (k : String) : Option PyVal :=
  match p with
  | .dict l => PyDict.get l k
  | _ => Option.none

/-- Lookup `page.get(k, d)` with a default. -/
def pageGetD (p : PyVal) (k : String) (d : PyVal) : PyVal :=
  (pageGet? p k).getD d

/-- Membership `k in page`. -/
def hasKeyB (p : PyVal) (k : String) : Bool :=
  (pageGet? p k).isSome

/-- Test `page.get("page_processing_status") == "success"`. -/
def isSuccessPage (p : PyVal) : Bool :=
  pageGetD p "page_processing_status" PyVal.none = .str "success"

/-- Quantity normalization inside `aggregate_page_results` (lines
205-210): `float(str(value).replace(",", "."))`; `Option.none` models
the caught `ValueError`/`TypeError` (the item is then skipped). -/
def aggQuantityVal (v : PyVal) : Option Dec :=
  PyStr.pyFloatL (PyStr.replaceL ",".toList ".".toList (pyStr v).toList)

/-- Cost normalization inside `aggregate_page_results` (lines 213-219):
strip `₽`, `руб` and commas from `str(value)`, then `strip()`; an empty
string contributes the int `0`, otherwise `float(...)`; `Option.none`
models the caught exception. -/
def aggCostCleaned (l : List Char) : List Char :=
  PyStr.stripChars
    (PyStr.replaceL ",".toList "".toList
      (PyStr.replaceL "руб".toList "".toList
        (PyStr.replaceL "₽".toList "".toList l)))

def aggCostVal (v : PyVal) : Option PyVal :=
  if (aggCostCleaned (pyStr v).toList).isEmpty then some (.int 0)
  else (PyStr.pyFloatL (aggCostCleaned (pyStr v).toList)).map .float

/-- Python `+` on the totals accumulators (int stays int only while
both operands are ints; adding a float yields a float). -/
def addNum : PyVal → PyVal → PyVal
  | .int a, .int b => .int (a + b)
  | .int a, .float d => .float (Dec.add (Dec.ofInt a) d)
  | .float d, .int b => .float (Dec.add d (Dec.ofInt b))
  | .float d, .float d2 => .float (Dec.add d d2)
  | a, _ => a

/-- Lowercasing for `re.IGNORECASE` over the alphabets the patterns
use (ASCII and the Cyrillic А-Я block). -/
def ciLower (c : Char) : Char :=
  if 'A' ≤ c ∧ c ≤ 'Z' then Char.ofNat (c.toNat + 32)
  else if 0x410 ≤ c.toNat ∧ c.toNat ≤ 0x42F then Char.ofNat (c.toNat + 32)
  else if c = 'Ё' then 'ё'
  else c

/-- Case-insensitive literal-prefix test (the pattern is lowercase). -/
def ciPrefix (pat l : List Char) : Bool :=
  (l.take pat.length).map ciLower = pat

/-- Word characters (`\w`) for the texts involved: ASCII
alphanumerics, underscore and the Cyrillic block. -/
def isWordChar (c : Char) : Bool :=
  c.isAlphanum ∨ c = '_' ∨ (0x400 ≤ c.toNat ∧ c.toNat ≤ 0x4FF)

/-- One attempt of `объект[:\s]+([^,\n]+)` at the head of the text:
the captured group and the consumed length. -/
def matchSiteAt (l : List Char) : Option (List Char × Nat) :=
  if ciPrefix "объект".toList l then
    let rest := l.drop 6
    let seps := rest.takeWhile (fun c => c = ':' ∨ PyStr.isPyWs c)
    if seps.isEmpty then Option.none
    else
      let rest2 := rest.drop seps.length
      let grp := rest2.takeWhile (fun c => ¬ (c = ',' ∨ c = '\n'))
      if grp.isEmpty then Option.none
      else some (grp, 6 + seps.length + grp.length)
  else Option.none

/-- One attempt of `заказ[^\w]*(\d+)` at the head of the text. -/
def matchOrderAt (l : List Char) : Option (List Char × Nat) :=
  if ciPrefix "заказ".toList l then
    let rest := l.drop 5
    let seps := rest.takeWhile (fun c => ¬ isWordChar c)
    let rest2 := rest.drop seps.length
    let digs := rest2.takeWhile Char.isDigit
    if digs.isEmpty then Option.none
    else some (digs, 5 + seps.length + digs.length)
  else Option.none

/-- Worker of `re.findall`: scan left to right; on a match record the
group and resume after the consumed text, else advance one character. -/
def findallGo (f : List Char → Option (List Char × Nat)) :
    Nat → List Char → List (List Char)
  | 0, _ => []
  | _ + 1, [] => []
  | fuel + 1, l@(_ :: t) =>
    match f l with
    | some (g, k) => g :: findallGo f fuel (l.drop (max k 1))
    | Option.none => findallGo f fuel t

/-- Model of `re.findall(pattern, text)` for the single-group patterns
above. -/
def findall (f : List Char → Option (List Char × Nat)) (l : List Char) :
    List (List Char) :=
  findallGo f l.length l

/-- Add to a Python-set accumulator. Python materializes sets in an
implementation-defined iteration order; first-insertion order is used
here (the claims depend only on membership and cardinality). -/
def insertNew (l : List String) (x : String) : List String :=
  if l.contains x then l else l ++ [x]

def insertAll (l : List String) (xs : List String) : List String :=
  xs.foldl insertNew l

/-- Accumulator of the act-item collection loop (lines 172-197). -/
structure CollectAcc where
  items : List PyVal
  sites : List String
  orders : List String

/-- Body of `for item in page["act"]["items"]` (lines 181-197). -/
def collectItem (page : PyVal) (acc : CollectAcc) (item : PyVal) : CollectAcc :=
  match item with
  | .dict idict =>
    let iwp := PyDict.set idict "source_page" (pageGetD page "page_number" (.int 0))
    let acc1 : CollectAcc := { acc with items := acc.items ++ [.dict iwp] }
    match (PyDict.get idict "service_description").getD (.str "") with
    | .str ds =>
      let l := ds.toList
      let siteMatches := (findall matchSiteAt l).map
        (fun g => String.mk (PyStr.stripChars g))
      let orderMatches := (findall matchOrderAt l).map String.mk
      { acc1 with sites := insertAll acc1.sites siteMatches,
                  orders := insertAll acc1.orders orderMatches }
    | _ => acc1
  | _ => acc

/-- Body of `for page in successful_pages` (lines 177-197). -/
def collectPage (acc : CollectAcc) (page : PyVal) : CollectAcc :=
  match pageGetD page "act" PyVal.none with
  | .dict act =>
    match PyDict.get act "items" with
    | some (.list items) => items.foldl (collectItem page) acc
    | _ => acc
  | _ => acc

/-- Contribution of one merged item to `total_quantity` (lines 204-210). -/
def itemQuantityContrib (item : PyVal) : Option PyVal :=
  match pageGet? item "quantity" with
  | some v => (aggQuantityVal v).map .float
  | Option.none => Option.none

/-- Contribution of one merged item to `total_cost` (lines 212-219). -/
def itemCostContrib (item : PyVal) : Option PyVal :=
  match pageGet? item "total_cost" with
  | some v => aggCostVal v
  | Option.none => Option.none

/-- The metadata whitelist of lines 168-170. -/
def metaKeys : List String :=
  ["document_type", "document_number", "date_of_issue", "customer",
   "contractor", "contract"]

/-- Embedding of `aggregate_page_results` (document_processor.py,
lines 137-244).
A non-mapping entry in `page_results` makes the Python list
comprehension raise `AttributeError`; that is modelled as
`Option.none` (the pipeline only ever passes mappings). -/
def aggregate_page_results (pr : List PyVal) : Option PyVal :=
  if ¬ pr.all isPyDict then Option.none
  else some (
    let succ := pr.filter isSuccessPage
    if succ.isEmpty then
      .dict [("error", .str "No pages were successfully processed"),
             ("page_results", .list pr),
             ("pages_processed", .int 0)]
    else
      let base0 := ((succ.find? (fun p =>
          (! pyTruthy (pageGetD p "parsing_error" PyVal.none))
            && hasKeyB p "document_type")).getD PyVal.none)
      let base := if ! pyTruthy base0 then succ.headD PyVal.none else base0
      let aggData0 : List (String × PyVal) :=
        if pyTruthy base then
          metaKeys.foldl (fun ad k =>
            match pageGet? base k with
            | some v => PyDict.set ad k v
            | Option.none => ad) []
        else []
      let col := succ.foldl collectPage ⟨[], [], []⟩
      let tq := (col.items.filterMap itemQuantityContrib).foldl addNum (.int 0)
      let tc := (col.items.filterMap itemCostContrib).foldl addNum (.int 0)
      let act : PyVal := .dict [("items", .list col.items),
        ("totals", .dict [("total_quantity", tq), ("total_cost", tc),
                          ("items_count", .int (col.items.length : Int))])]
      let ad1 := PyDict.set aggData0 "act" act
      let ad2 := PyDict.set ad1 "sites" (.list (col.sites.map .str))
      let ad3 := PyDict.set ad2 "order_numbers" (.list (col.orders.map .str))
      let summary : PyVal := .dict [
        ("pages_with_errors",
          .int ((pr.filter (fun p => ! isSuccessPage p)).length : Int)),
        ("pages_successfully_processed", .int (succ.length : Int)),
        ("total_act_items_found", .int (col.items.length : Int)),
        ("unique_sites_found", .int (col.sites.length : Int)),
        ("unique_order_numbers_found", .int (col.orders.length : Int))]
      .dict [("pages_processed", .int (succ.length : Int)),
             ("total_pages", .int (pr.length : Int)),
             ("page_results", .list pr),
             ("aggregated_data", .dict ad3),
             ("processing_summary", summary)])

end DocProcessor

namespace DocProcessor

/-- Embedding of `_is_valid_number` (lines 446-456). NaN floats cannot
be produced by the exact decimals of this model, so the NaN check of
the source is vacuously passed (no claim involves NaN). Booleans are
ints in Python and validate. -/
def isValidNumber : PyVal → Bool
  | .bool _ => true
  | .int _ => true
  | .float _ => true
  | .str s => (PyStr.pyFloatL (PyStr.replaceL ",".toList ".".toList s.toList)).isSome
  | _ => false

/-- The numeric fields verified per act item (line 424). -/
def numericFields : List String := ["quantity", "unit_price", "total_cost"]

/-- Verification errors of one act item (lines 421-429). -/
def itemErrors (i : Nat) (item : PyVal) : List String :=
  match item with
  | .dict d =>
      numericFields.filterMap (fun f =>
        match PyDict.get d f with
        | some v =>
            if ¬ isValidNumber v then
              some ("Item " ++ toString (i + 1) ++ ": Invalid " ++ f ++
                " value: " ++ pyStr v)
            else Option.none
        | Option.none => Option.none)
  | _ => []

/-- Worker of `for i, item in enumerate(items)`. -/
def itemErrorsFrom : Nat → List PyVal → List String
  | _, [] => []
  | i, it :: rest => itemErrors i it ++ itemErrorsFrom (i + 1) rest

/-- Verification of `act.total` (lines 432-438). -/
def totalErrors (t : List (String × PyVal)) : List String :=
  (match PyDict.get t "total_cost" with
   | some v => if ¬ isValidNumber v then ["Invalid total cost: " ++ pyStr v] else []
   | Option.none => []) ++
  (match PyDict.get t "quantity" with
   | some v => if ¬ isValidNumber v then ["Invalid total quantity: " ++ pyStr v] else []
   | Option.none => [])

/-- Exception message of `x in v` for a non-container `v`. -/
def notIterableMsg (v : PyVal) : String :=
  "argument of type '" ++ pyTypeName v ++ "' is not iterable"

/-- Exception message of subscripting a list or string with a string
key (only the production of a single verification-error entry matters
to the claims). -/
def badSubscriptMsg : PyVal → String
  | .list _ => "list indices must be integers or slices, not str"
  | _ => "string indices must be integers"

/-- Embedding of `perform_verification` (lines 412-443): the whole
body sits in a try/except that converts any raised exception into one
trailing "Verification error" entry (the entries appended before the
raise are kept — none can precede the raise points here). -/
def performVerification (result : PyVal) : List String :=
  match result with
  | .dict d =>
    match PyDict.get d "act" with
    | some (.dict act) =>
        let e1 :=
          match PyDict.get act "items" with
          | some (.list items) => itemErrorsFrom 0 items
          | _ => []
        let e2 :=
          match PyDict.get act "total" with
          | some (.dict t) => totalErrors t
          | _ => []
        e1 ++ e2
    | some (.list l) =>
        if l.contains (.str "items") ∨ l.contains (.str "total") then
          ["Verification error: " ++ badSubscriptMsg (.list l)]
        else []
    | some (.str s) =>
        if PyStr.containsSub "items".toList s.toList ∨
            PyStr.containsSub "total".toList s.toList then
          ["Verification error: " ++ badSubscriptMsg (.str s)]
        else []
    | some v => ["Verification error: " ++ notIterableMsg v]
    | Option.none => []
  | .list l =>
      if l.contains (.str "act") then
        ["Verification error: " ++ badSubscriptMsg (.list l)]
      else []
  | .str s =>
      if PyStr.containsSub "act".toList s.toList then
        ["Verification error: " ++ badSubscriptMsg (.str s)]
      else []
  | v => ["Verification error: " ++ notIterableMsg v]

/-- The per-invocation `DocumentState` TypedDict (lines 11-21). The
raw PDF bytes are not represented: the external capabilities of
`PipelineEnv` are already fixed to one document. -/
structure DocumentState where
  file_type_prompts : List (String × PyVal)
  processing_result : PyVal
  page_results : List PyVal
  current_page : Nat
  total_pages : Nat
  error : String
  processing_mode : String
  verification_enabled : PyVal
  extracted_text : String
  deriving DecidableEq

/-- External capabilities for one document, the spec's black boxes:
`pdfToText`/`pdfToImages` model the PyMuPDF helpers (their own
"Failed to ..." wrapping included in the error string), `llmImage i`
models the LLM round-trip for 0-based page `i`, `llmText` the single
text-mode round-trip; `Except.error` carries `str(exception)`. -/
structure PipelineEnv where
  pdfToText : Except String String
  pdfToImages : Except String (List String)
  llmImage : Nat → Except String String
  llmText : Except String String

/-- Embedding of `extract_content_node` (lines 246-269). -/
def extract_content_node (env : PipelineEnv) (s : DocumentState) : DocumentState :=
  if s.error ≠ "" then s
  else
    let mode := (PyDict.get s.file_type_prompts "processing_mode").getD (.str "IMAGE_OCR")
    if mode = .str "TEXT_EXTRACTION" then
      match env.pdfToText with
      | .ok t =>
          { s with extracted_text := t, processing_mode := "TEXT_EXTRACTION",
                   verification_enabled :=
                     (PyDict.get s.file_type_prompts "verification_enabled").getD (.bool false) }
      | .error e => { s with error := "Content extraction failed: " ++ e }
    else
      { s with processing_mode := "IMAGE_OCR", extracted_text := "",
               verification_enabled :=
                 (PyDict.get s.file_type_prompts "verification_enabled").getD (.bool false) }

/-- TypeError message of `v["k"] = ...` on a non-mapping. -/
def itemAssignMsg : PyVal → String
  | .list _ => "list indices must be integers or slices, not str"
  | v => "'" ++ pyTypeName v ++ "' object does not support item assignment"

/-- The failed-page record of lines 361-365. -/
def failedEntry (n : Nat) (e : String) : PyVal :=
  .dict [("page_number", .int n),
         ("page_processing_status", .str "failed"),
         ("error", .str e)]

/-- One iteration of the per-page loop (lines 327-366): an LLM failure
or a non-mapping parse result (whose metadata assignment raises) is
caught for this page only; success stamps the page metadata. -/
def processPage (env : PipelineEnv) (idx : Nat) : PyVal :=
  match env.llmImage idx with
  | .error e => failedEntry (idx + 1) e
  | .ok content =>
    match parse_chatgpt_response content with
    | .dict d =>
        .dict (PyDict.set (PyDict.set d "page_number" (.int (idx + 1)))
          "page_processing_status" (.str "success"))
    | v => failedEntry (idx + 1) (itemAssignMsg v)

/-- Exception message of `page.get` on the first non-mapping page
(unreachable from the pipeline, which only builds mappings). -/
def aggRaiseMsg (pr : List PyVal) : String :=
  match pr.find? (fun p => ¬ isPyDict p) with
  | some v => "'" ++ pyTypeName v ++ "' object has no attribute 'get'"
  | Option.none => ""

/-- Embedding of `process_with_chatgpt_node` (lines 271-378). -/
def process_with_chatgpt_node (env : PipelineEnv) (s : DocumentState) : DocumentState :=
  if s.error ≠ "" then s
  else if s.processing_mode = "TEXT_EXTRACTION" then
    if s.extracted_text = "" then
      { s with error := "Text-based processing failed: No text extracted from PDF" }
    else
      match env.llmText with
      | .error e => { s with error := "Text-based processing failed: " ++ e }
      | .ok content =>
        match parse_chatgpt_response content with
        | .dict d =>
            { s with processing_result :=
                PyVal.dict (PyDict.set (PyDict.set d "processing_mode" (.str "TEXT_EXTRACTION"))
                  "processing_status" (.str "success")) }
        | v => { s with error := "Text-based processing failed: " ++ itemAssignMsg v }
  else
    match env.pdfToImages with
    | .error e => { s with error := "PDF to image conversion failed: " ++ e }
    | .ok imgs =>
      if imgs.isEmpty then
        { s with error := "PDF to image conversion failed: No images generated from PDF" }
      else
        let n := imgs.length
        let pages := (List.range n).map (processPage env)
        let s1 := { s with total_pages := n, page_results := pages, current_page := n }
        if pages.isEmpty then
          { s1 with error := "No pages were successfully processed" }
        else
          match aggregate_page_results pages with
          | some (.dict r) =>
              { s1 with processing_result :=
                  PyVal.dict (PyDict.set r "processing_mode" (.str "IMAGE_OCR")) }
          | some v => { s1 with error := "ChatGPT processing failed: " ++ itemAssignMsg v }
          | Option.none => { s1 with error := "ChatGPT processing failed: " ++ aggRaiseMsg pages }

/-- Python iteration over the `required_fields` value (list elements,
string characters, dict keys); `Option.none` models the `TypeError`
of iterating a non-iterable, which `validate_result_node` does not
catch. -/
def pyIterElems : PyVal → Option (List PyVal)
  | .list l => some l
  | .str s => some (s.toList.map (fun c => .str (String.mk [c])))
  | .dict d => some (d.map (fun kv => .str kv.1))
  | _ => Option.none

/-- Test `field not in processing_result`; `Option.none` models a
`TypeError`. A non-string needle never equals a string dict key, so
it counts as missing. -/
def fieldMissing (f : PyVal) (pr : PyVal) : Option Bool :=
  match pr with
  | .dict d =>
      some (match f with
            | .str k => (PyDict.get d k).isNone
            | _ => true)
  | .list l => some (¬ l.contains f)
  | .str s =>
      match f with
      | .str sub => some (¬ PyStr.containsSub sub.toList s.toList)
      | _ => Option.none
  | _ => Option.none

/-- The missing-required-field messages (lines 393-395); `Option.none`
when a membership test raises. -/
def missingFieldErrors (pr : PyVal) : List PyVal → Option (List String)
  | [] => some []
  | f :: fs =>
    match fieldMissing f pr with
    | Option.none => Option.none
    | some true =>
        (missingFieldErrors pr fs).map
          (fun es => ("Missing required field: " ++ pyStr f) :: es)
    | some false => missingFieldErrors pr fs

/-- Assignment `pr[k] = v`; `Option.none` models the `TypeError` on a
non-mapping result. -/
def pySetKey (pr : PyVal) (k : String) (v : PyVal) : Option PyVal :=
  match pr with
  | .dict d => some (.dict (PyDict.set d k v))
  | _ => Option.none

/-- Embedding of `validate_result_node` (lines 380-409); the node has
no try/except, so `Option.none` models an exception escaping the
whole pipeline run. -/
def validate_result_node (s : DocumentState) : Option DocumentState :=
  if s.error ≠ "" then some s
  else if ¬ pyTruthy s.processing_result then
    some { s with error := "No processing result generated" }
  else
    match pyIterElems ((PyDict.get s.file_type_prompts "required_fields").getD (.list [])) with
    | Option.none => Option.none
    | some rf =>
      match missingFieldErrors s.processing_result rf with
      | Option.none => Option.none
      | some es =>
        let ve := if pyTruthy s.verification_enabled
                  then performVerification s.processing_result else []
        let allErrs := es ++ ve
        let pr1 := if allErrs.isEmpty then some s.processing_result
                   else pySetKey s.processing_result "validation_errors"
                          (.list (allErrs.map .str))
        match pr1 with
        | Option.none => Option.none
        | some pr2 =>
          match pySetKey pr2 "verification_performed" s.verification_enabled with
          | Option.none => Option.none
          | some pr3 => some { s with processing_result := pr3 }

/-- The initial state of `process_document` (lines 476-487). -/
def initState (prompts : List (String × PyVal)) : DocumentState :=
  { file_type_prompts := prompts, processing_result := .dict [],
    page_results := [], current_page := 0, total_pages := 0, error := "",
    processing_mode := "IMAGE_OCR", verification_enabled := .bool false,
    extracted_text := "" }

/-- The final state of the pipeline run: the graph built by
`create_document_processor` (lines 458-471) wires the three nodes
strictly sequentially. -/
def finalState (env : PipelineEnv) (prompts : List (String × PyVal)) :
    Option DocumentState :=
  validate_result_node
    (process_with_chatgpt_node env (extract_content_node env (initState prompts)))

/-- Embedding of `process_document` (lines 475-494); `Option.none`
models an exception escaping `ainvoke`. -/
def process_document (env : PipelineEnv) (prompts : List (String × PyVal)) :
    Option PyVal :=
  match finalState env prompts with
  | some s3 =>
      some (if s3.error ≠ "" then .dict [("error", .str s3.error)]
            else s3.processing_result)
  | Option.none => Option.none

end DocProcessor

open DocProcessor

example : Huawei.extractNumericValue (.str "1 234,56 ₽") = Dec.ofInt 123456 := by decide
example : Huawei.extractNumericValue (.str "not a number") = Dec.ofInt 0 := by decide
example : Huawei.extractNumericValue PyVal.none = Dec.ofInt 0 := by decide
example : Huawei.extractNumericValue (.str "100 ₽") = Dec.ofInt 100 := by decide

example :
    (aggregate_page_results
      [.dict [("document_type", .str "P-1"),
              ("act", .dict [("items", .list
                [.dict [("quantity", .str "2,5"), ("total_cost", .str "100 ₽")]])]),
              ("page_number", .int 1),
              ("page_processing_status", .str "success")],
       failedEntry 2 "LLM error"]).map
      (fun r =>
        (pageGetD r "pages_processed" PyVal.none,
         pageGetD r "total_pages" PyVal.none,
         pageGetD (pageGetD (pageGetD (pageGetD r "aggregated_data" PyVal.none)
           "act" PyVal.none) "totals" PyVal.none) "total_quantity" PyVal.none,
         pageGetD (pageGetD (pageGetD (pageGetD r "aggregated_data" PyVal.none)
           "act" PyVal.none) "totals" PyVal.none) "total_cost" PyVal.none,
         pageGetD (pageGetD r "processing_summary" PyVal.none)
           "pages_with_errors" PyVal.none)) =
    some (.int 1, .int 2, .float ⟨25, 1⟩, .float ⟨100, 0⟩, .int 1) := by decide

example :
    (aggregate_page_results [failedEntry 1 "x", failedEntry 2 "y"]) =
    some (.dict [("error", .str "No pages were successfully processed"),
                 ("page_results", .list [failedEntry 1 "x", failedEntry 2 "y"]),
                 ("pages_processed", .int 0)]) := by decide

/-- C1: the claim says `_extract_numeric_value` is total (it is — the
embedding returns a float for every input, and the probe inputs
`"not a number"` and `None` both yield 0.0), but its concrete anchor
`extract_numeric("1 234,56 ₽") == 1234.56` fails on the code: commas
and spaces are deleted (line 126) before the comma-to-dot
normalization of line 129, which is therefore dead code, so the code
returns 123456.0.  This theorem evaluates the embedded code at the
three probe inputs and records that 123456.0 is not 1234.56. -/
theorem c1_extract_numeric_eval :
    Huawei.extractNumericValue (.str "1 234,56 ₽") = Dec.ofInt 123456 ∧
    Dec.ofInt 123456 ≠ (⟨123456, 2⟩ : Dec) ∧
    Huawei.extractNumericValue (.str "not a number") = Dec.ofInt 0 ∧
    Huawei.extractNumericValue PyVal.none = Dec.ofInt 0 := by
  refine ⟨by decide, by decide, by decide, by decide⟩

namespace PyStr

theorem dropWhile_id_of_not {p : Char → Bool} (l : List Char)
    (h : ∀ c ∈ l, p c = false) : l.dropWhile p = l := by
  cases l with
  | nil => rfl
  | cons c t => simp [List.dropWhile, h c (by simp)]

theorem takeWhile_id_of_all {p : Char → Bool} :
    ∀ (l : List Char), (∀ c ∈ l, p c = true) → l.takeWhile p = l := by
  intro l
  induction l with
  | nil => intro; rfl
  | cons c t ih =>
      intro h
      simp only [List.takeWhile, h c (by simp)]
      exact congrArg (c :: ·) (ih (fun x hx => h x (by simp [hx])))

theorem dropWhile_nil_of_all {p : Char → Bool} :
    ∀ (l : List Char), (∀ c ∈ l, p c = true) → l.dropWhile p = [] := by
  intro l
  induction l with
  | nil => intro; rfl
  | cons c t ih =>
      intro h
      simp only [List.dropWhile, h c (by simp)]
      exact ih (fun x hx => h x (by simp [hx]))

theorem replaceGo_id {p : Char} (ps rep : List Char) :
    ∀ (fuel : Nat) (l : List Char), p ∉ l →
      replaceGo (p :: ps) rep fuel l = l := by
  intro fuel
  induction fuel with
  | zero => intro l _; rfl
  | succ n ih =>
      intro l h
      match l with
      | [] => rfl
      | c :: t =>
        have hpc : p ≠ c := fun he => h (he ▸ List.mem_cons_self p t)
        have hpre : (p :: ps).isPrefixOf (c :: t) = false := by
          cases hb : p == c with
          | false => simp [List.isPrefixOf, hb]
          | true => exact absurd (beq_iff_eq.mp hb) hpc
        have ht : p ∉ t := fun hm => h (List.mem_cons_of_mem c hm)
        simp [replaceGo, hpre, ih t ht]

theorem replaceL_id {p : Char} (ps rep : List Char) (l : List Char)
    (h : p ∉ l) : replaceL (p :: ps) rep l = l :=
  replaceGo_id ps rep l.length l h

theorem not_mem_of_all_digit {l : List Char}
    (h : ∀ c ∈ l, c.isDigit = true) {p : Char} (hp : p.isDigit = false) :
    p ∉ l := fun hm => by
  have := h p hm
  rw [hp] at this
  exact absurd this (by simp)

theorem isPyWs_false_of_digit {c : Char} (h : c.isDigit = true) :
    isPyWs c = false := by
  by_contra hw
  have hw' : isPyWs c = true := by
    revert hw; cases isPyWs c <;> simp
  simp only [isPyWs, decide_eq_true_eq] at hw'
  rcases hw' with h1 | h1 | h1 | h1 | h1 | h1 <;>
    (subst h1; exact absurd h (by decide))

theorem stripChars_id_of_digit {l : List Char}
    (h : ∀ c ∈ l, c.isDigit = true) : stripChars l = l := by
  unfold stripChars
  rw [dropWhile_id_of_not l (fun c hc => isPyWs_false_of_digit (h c hc))]
  rw [dropWhile_id_of_not l.reverse
    (fun c hc => isPyWs_false_of_digit (h c (List.mem_reverse.mp hc)))]
  exact List.reverse_reverse l

theorem readSign_digit {c : Char} {t : List Char} (h : c.isDigit = true) :
    readSign (c :: t) = (false, c :: t) := by
  have h1 : c ≠ '-' := fun he => by subst he; exact absurd h (by decide)
  have h2 : c ≠ '+' := fun he => by subst he; exact absurd h (by decide)
  simp [readSign, h1, h2]

theorem pyFloatCore_digits {l : List Char} (hne : l ≠ [])
    (hdig : ∀ c ∈ l, c.isDigit = true) :
    pyFloatCore l = some (Dec.ofInt (digitsToNat l : ℤ)) := by
  match l, hne with
  | c :: t, _ =>
    have hsign := readSign_digit (t := t) (hdig c (by simp))
    have htake := takeWhile_id_of_all (p := Char.isDigit) (c :: t) hdig
    have hdrop := dropWhile_nil_of_all (p := Char.isDigit) (c :: t) hdig
    unfold pyFloatCore
    rw [hsign]
    simp only [htake, hdrop]
    simp [pyExpPart, decOfDigits, digitsToNat, Dec.norm, Dec.ofInt]

theorem pyFloatL_digits {l : List Char} (hne : l ≠ [])
    (hdig : ∀ c ∈ l, c.isDigit = true) :
    pyFloatL l = some (Dec.ofInt (digitsToNat l : ℤ)) := by
  unfold pyFloatL
  rw [stripChars_id_of_digit hdig]
  exact pyFloatCore_digits hne hdig

theorem searchNumRun_digits {l : List Char} (hne : l ≠ [])
    (hdig : ∀ c ∈ l, c.isDigit = true) : searchNumRun l = some l := by
  have hclass : ∀ c ∈ l, isNumRunChar c = true := fun c hc => by
    simp [isNumRunChar, hdig c hc]
  have hd : l.dropWhile (fun c => ! isNumRunChar c) = l :=
    dropWhile_id_of_not l (fun c hc => by simp [hclass c hc])
  unfold searchNumRun
  rw [hd]
  match l, hne with
  | c :: t, _ => simp [takeWhile_id_of_all (c :: t) hclass]

end PyStr

open PyStr

/-- C2 counterexample: the claim says the Post-Processor's numeric
re-derivation and the Aggregator's normalization are the identical
algorithm on `unit_price`/`total_cost`/`quantity`; on the line item
with `quantity = "2,5"` the Post-Processor stores
`quantity_numeric = 0.0` (plain `float("2,5")` raises and falls back),
while the Aggregator's quantity normalization of the same field value
yields 2.5 — so the claim is false. -/
theorem c2_counterexample :
    PyDict.get (Huawei.processActItem [("quantity", .str "2,5")]) "quantity_numeric" =
      some (.float (Dec.ofInt 0)) ∧
    aggQuantityVal (.str "2,5") = some ⟨25, 1⟩ ∧
    (Dec.ofInt 0 : Dec) ≠ (⟨25, 1⟩ : Dec) :=
  ⟨by decide, by decide, by decide⟩

/-- Identity of the cleaning chains on strings without currency
symbols, commas or whitespace (such as pure digit strings). -/
theorem replaceL_rouble_id {l : List Char} (rep : List Char) (h : '₽' ∉ l) :
    replaceL "₽".toList rep l = l := replaceL_id _ _ _ h

theorem replaceL_rub_id {l : List Char} (rep : List Char) (h : 'р' ∉ l) :
    replaceL "руб".toList rep l = l := replaceL_id _ _ _ h

theorem replaceL_dollar_id {l : List Char} (rep : List Char) (h : '$' ∉ l) :
    replaceL "$".toList rep l = l := replaceL_id _ _ _ h

theorem replaceL_comma_id {l : List Char} (rep : List Char) (h : ',' ∉ l) :
    replaceL ",".toList rep l = l := replaceL_id _ _ _ h

theorem replaceL_space_id {l : List Char} (rep : List Char) (h : ' ' ∉ l) :
    replaceL " ".toList rep l = l := replaceL_id _ _ _ h

theorem extractNumericCleaned_id {l : List Char}
    (h1 : '₽' ∉ l) (h2 : 'р' ∉ l) (h3 : '$' ∉ l) (h4 : ',' ∉ l)
    (h5 : ' ' ∉ l) (h6 : ∀ c ∈ l, c.isDigit = true) :
    Huawei.extractNumericCleaned l = l := by
  unfold Huawei.extractNumericCleaned
  rw [replaceL_rouble_id _ h1, replaceL_rub_id _ h2, replaceL_dollar_id _ h3,
      replaceL_comma_id _ h4, replaceL_space_id _ h5,
      stripChars_id_of_digit h6, replaceL_comma_id _ h4]

theorem aggCostCleaned_id {l : List Char}
    (h1 : '₽' ∉ l) (h2 : 'р' ∉ l) (h4 : ',' ∉ l)
    (h6 : ∀ c ∈ l, c.isDigit = true) :
    aggCostCleaned l = l := by
  unfold aggCostCleaned
  rw [replaceL_rouble_id _ h1, replaceL_rub_id _ h2, replaceL_comma_id _ h4,
      stripChars_id_of_digit h6]

/-- C2 (amended): the two numeric procedures are not the identical
algorithm (they disagree on locale-formatted strings such as
quantity `"2,5"`, and the Aggregator normalizes no `unit_price` at
all); they do agree on every field value that is a nonempty string of
decimal digits: the Post-Processor's `_extract_numeric_value` (used
for `unit_price`/`total_cost`), its plain `float()` (used for
`quantity`), and the Aggregator's quantity and cost normalizations
all yield that string's numeric value. -/
theorem c2_amended_agreement (s : String) (hne : s.toList ≠ [])
    (hdig : ∀ c ∈ s.toList, c.isDigit = true) :
    ∃ d : Dec,
      PyStr.pyFloat s = some d ∧
      Huawei.extractNumericValue (.str s) = d ∧
      pyFloatOfVal (.str s) = some d ∧
      aggQuantityVal (.str s) = some d ∧
      aggCostVal (.str s) = some (.float d) := by
  have m₁ : ('₽' : Char) ∉ s.toList := not_mem_of_all_digit hdig (by decide)
  have m₂ : ('р' : Char) ∉ s.toList := not_mem_of_all_digit hdig (by decide)
  have m₃ : ('$' : Char) ∉ s.toList := not_mem_of_all_digit hdig (by decide)
  have m₄ : (',' : Char) ∉ s.toList := not_mem_of_all_digit hdig (by decide)
  have m₅ : (' ' : Char) ∉ s.toList := not_mem_of_all_digit hdig (by decide)
  have hie : s.toList.isEmpty = false := by
    cases h2 : s.toList with
    | nil => exact absurd h2 hne
    | cons a b => rfl
  refine ⟨Dec.ofInt (digitsToNat s.toList : ℤ), ?_, ?_, ?_, ?_, ?_⟩
  · exact pyFloatL_digits hne hdig
  · show ((searchNumRun (Huawei.extractNumericCleaned s.toList)).bind
        pyFloatL).getD (Dec.ofInt 0) = _
    rw [extractNumericCleaned_id m₁ m₂ m₃ m₄ m₅ hdig,
        searchNumRun_digits hne hdig, Option.some_bind,
        pyFloatL_digits hne hdig, Option.getD_some]
  · show PyStr.pyFloat s = _
    exact pyFloatL_digits hne hdig
  · show pyFloatL (replaceL ",".toList ".".toList (pyStr (.str s)).toList) = _
    rw [show pyStr (.str s) = s from rfl, replaceL_comma_id _ m₄]
    exact pyFloatL_digits hne hdig
  · show (if (aggCostCleaned (pyStr (.str s)).toList).isEmpty
        then some (.int 0)
        else (pyFloatL (aggCostCleaned (pyStr (.str s)).toList)).map PyVal.float) = _
    rw [show pyStr (.str s) = s from rfl, aggCostCleaned_id m₁ m₂ m₄ hdig,
        hie, pyFloatL_digits hne hdig]
    simp

/-- C2 amended-claim witness at the concrete digit string `"120"`. -/
theorem c2_amended_agreement_witness :
    ∃ d : Dec,
      PyStr.pyFloat "120" = some d ∧
      Huawei.extractNumericValue (.str "120") = d ∧
      pyFloatOfVal (.str "120") = some d ∧
      aggQuantityVal (.str "120") = some d ∧
      aggCostVal (.str "120") = some (.float d) :=
  c2_amended_agreement "120" (by decide) (by decide)

/-- C3 counterexample: the claim says `parse_chatgpt_response` always
returns a mapping; on the input `"42"` the first strategy
(`json.loads` of the whole text) succeeds with the integer 42, which
is returned as-is and is not a mapping. -/
theorem c3_counterexample :
    parse_chatgpt_response "42" = PyVal.int 42 ∧
    isPyDict (PyVal.int 42) = false :=
  ⟨by decide, by decide⟩

/-- C3 (amended): for every string input `parse_chatgpt_response`
never raises (it is a total function of the input) and returns either
a value obtained by a successful `json.loads` of some text — which
may be a non-mapping JSON value such as a number or a list — or the
sentinel mapping `{raw_response: <stripped input>, parsing_error:
<fixed message>}`. -/
theorem c3_amended_total_shape (content : String) :
    (∃ s : String, jsonLoads s = some (parse_chatgpt_response content)) ∨
    parse_chatgpt_response content = sentinelOf (stripChars content.toList) := by
  unfold parse_chatgpt_response
  split
  next v h0 => exact Or.inl ⟨content, by rw [h0]⟩
  next h0 =>
    dsimp only
    split
    · split
      next inner hin =>
        split
        next v hv => exact Or.inl ⟨String.mk (stripChars inner), by rw [hv]⟩
        next hv => exact Or.inr rfl
      next hin => exact Or.inr rfl
    · split
      · split
        next inner hin =>
          split
          next v hv => exact Or.inl ⟨String.mk (stripChars inner), by rw [hv]⟩
          next hv => exact Or.inr rfl
        next hin => exact Or.inr rfl
      · split
        next sp hsp =>
          split
          next v hv => exact Or.inl ⟨String.mk sp, by rw [hv]⟩
          next hv => exact Or.inr rfl
        next hsp => exact Or.inr rfl

/-- C4 counterexample: the claim says that when a fenced-block
strategy fails the brace-span strategy is still attempted; on an
input with a failing ```json fence followed by a valid brace span the
code returns the sentinel, even though the brace span holds valid
JSON — the strategies are exclusive branches, not a fall-through
chain. -/
theorem c4_counterexample :
    parse_chatgpt_response "```json\nbad\n``` \x7b\"a\": 1\x7d" =
      sentinelOf (stripChars "```json\nbad\n``` \x7b\"a\": 1\x7d".toList) ∧
    (braceSpan (stripChars "```json\nbad\n``` \x7b\"a\": 1\x7d".toList)).bind
        (fun sp => jsonLoads (String.mk sp)) =
      some (.dict [("a", .int 1)]) :=
  ⟨by decide, by decide⟩

/-- C4 (amended): the strategies are mutually exclusive branches
selected by inspecting the (stripped) content: after a failed
whole-text parse, if any fence marker occurs then only the selected
fenced block (the ```json one when that marker occurs, else the
generic one) is attempted, and any failure inside that branch falls
directly to the sentinel — the brace span is never consulted. -/
theorem c4_amended_fence_exclusive (content : String)
    (h0 : jsonLoads content = Option.none)
    (hf : containsSub fenceMark (stripChars content.toList) = true) :
    parse_chatgpt_response content = sentinelOf (stripChars content.toList) ∨
    (∃ inner,
      (if containsSub jsonFenceMark (stripChars content.toList) = true
       then fencedJsonInner (stripChars content.toList)
       else fencedAnyInner (stripChars content.toList)) = some inner ∧
      jsonLoads (String.mk (stripChars inner)) =
        some (parse_chatgpt_response content)) := by
  unfold parse_chatgpt_response
  split
  next v hv =>
    rw [h0] at hv
    exact Option.noConfusion hv
  next _ =>
    dsimp only
    by_cases hjf : containsSub jsonFenceMark (stripChars content.toList) = true
    · simp only [if_pos hjf]
      split
      next inner hin =>
        split
        next v hv => exact Or.inr ⟨inner, hin, by rw [hv]⟩
        next hv => exact Or.inl rfl
      next hin => exact Or.inl rfl
    · simp only [if_neg hjf, if_pos hf]
      split
      next inner hin =>
        split
        next v hv => exact Or.inr ⟨inner, hin, by rw [hv]⟩
        next hv => exact Or.inl rfl
      next hin => exact Or.inl rfl

/-- C4 amended-claim witness at the counterexample input. -/
theorem c4_amended_fence_exclusive_witness :
    parse_chatgpt_response "```json\nbad\n``` \x7b\"a\": 1\x7d" =
      sentinelOf (stripChars "```json\nbad\n``` \x7b\"a\": 1\x7d".toList) ∨
    (∃ inner,
      (if containsSub jsonFenceMark
            (stripChars "```json\nbad\n``` \x7b\"a\": 1\x7d".toList) = true
       then fencedJsonInner (stripChars "```json\nbad\n``` \x7b\"a\": 1\x7d".toList)
       else fencedAnyInner (stripChars "```json\nbad\n``` \x7b\"a\": 1\x7d".toList))
        = some inner ∧
      jsonLoads (String.mk (stripChars inner)) =
        some (parse_chatgpt_response "```json\nbad\n``` \x7b\"a\": 1\x7d")) :=
  c4_amended_fence_exclusive "```json\nbad\n``` \x7b\"a\": 1\x7d"
    (by decide) (by decide)

theorem length_filter_split (pr : List PyVal) (p : PyVal → Bool) :
    (pr.filter p).length + (pr.filter (fun x => ! p x)).length = pr.length := by
  induction pr with
  | nil => rfl
  | cons a t ih => cases h : p a <;> simp [List.filter, h] <;> omega

/-- Nested lookup `d[k1][k2]` on mappings. -/
def dget2 (d : List (String × PyVal)) (k1 k2 : String) : Option PyVal :=
  match PyDict.get d k1 with
  | some (.dict d2) => PyDict.get d2 k2
  | _ => Option.none

/-- C5: for every sequence of page mappings, `aggregate_page_results`
returns a mapping whose `pages_processed` equals the number of entries
with `page_processing_status == "success"`; that count plus the count
of the remaining entries equals `len(page_results)`; and whenever at
least one page succeeded, the mapping's `total_pages` equals
`len(page_results)` and `processing_summary.pages_with_errors` equals
the failed count (in the zero-success branch those keys are absent,
but `pages_processed = 0` still equals the success count). -/
theorem c5_page_count_invariant (pr : List PyVal)
    (hd : pr.all isPyDict = true) :
    ∃ d : List (String × PyVal),
      aggregate_page_results pr = some (.dict d) ∧
      PyDict.get d "pages_processed" =
        some (.int ((pr.filter isSuccessPage).length : Int)) ∧
      (pr.filter isSuccessPage).length +
        (pr.filter (fun p => ! isSuccessPage p)).length = pr.length ∧
      ((pr.filter isSuccessPage).length ≠ 0 →
        PyDict.get d "total_pages" = some (.int (pr.length : Int)) ∧
        dget2 d "processing_summary" "pages_with_errors" =
          some (.int ((pr.filter (fun p => ! isSuccessPage p)).length : Int))) := by
  have hcount := length_filter_split pr isSuccessPage
  unfold aggregate_page_results
  rw [if_neg (by simp [hd])]
  dsimp only
  by_cases hs : (pr.filter isSuccessPage).isEmpty = true
  · have hs0 : pr.filter isSuccessPage = [] := by
      cases h2 : pr.filter isSuccessPage with
      | nil => rfl
      | cons a t => rw [h2] at hs; exact absurd hs (by simp)
    rw [if_pos hs]
    refine ⟨_, rfl, ?_, hcount, ?_⟩
    · simp [PyDict.get, hs0]
    · intro hne
      rw [hs0] at hne
      exact absurd rfl hne
  · rw [if_neg hs]
    refine ⟨_, rfl, ?_, hcount, ?_⟩
    · simp [PyDict.get]
    · intro _
      constructor
      · simp [PyDict.get]
      · simp [dget2, PyDict.get]

/-- C5 witness: the invariant at a concrete two-page input with one
successful and one failed page. -/
theorem c5_page_count_invariant_witness :
    ∃ d : List (String × PyVal),
      aggregate_page_results
        [.dict [("page_processing_status", .str "success"), ("page_number", .int 1)],
         failedEntry 2 "y"] = some (.dict d) ∧
      PyDict.get d "pages_processed" =
        some (.int (([PyVal.dict [("page_processing_status", .str "success"),
            ("page_number", .int 1)], failedEntry 2 "y"].filter
              isSuccessPage).length : Int)) ∧
      ([PyVal.dict [("page_processing_status", .str "success"), ("page_number", .int 1)],
        failedEntry 2 "y"].filter isSuccessPage).length +
        ([PyVal.dict [("page_processing_status", .str "success"), ("page_number", .int 1)],
          failedEntry 2 "y"].filter (fun p => ! isSuccessPage p)).length =
        [PyVal.dict [("page_processing_status", .str "success"), ("page_number", .int 1)],
         failedEntry 2 "y"].length ∧
      (([PyVal.dict [("page_processing_status", .str "success"), ("page_number", .int 1)],
         failedEntry 2 "y"].filter isSuccessPage).length ≠ 0 →
        PyDict.get d "total_pages" =
          some (.int ([PyVal.dict [("page_processing_status", .str "success"),
            ("page_number", .int 1)], failedEntry 2 "y"].length : Int)) ∧
        dget2 d "processing_summary" "pages_with_errors" =
          some (.int (([PyVal.dict [("page_processing_status", .str "success"),
            ("page_number", .int 1)], failedEntry 2 "y"].filter
              (fun p => ! isSuccessPage p)).length : Int))) :=
  c5_page_count_invariant _ (by decide)

/-- Computation of the zero-success branch of the aggregator (shared
by several results below). -/
theorem aggregate_zero_success (pr : List PyVal)
    (hd : pr.all isPyDict = true)
    (hf : ∀ p ∈ pr, isSuccessPage p = false) :
    aggregate_page_results pr =
      some (.dict [("error", .str "No pages were successfully processed"),
                   ("page_results", .list pr),
                   ("pages_processed", .int 0)]) := by
  have hfe : pr.filter isSuccessPage = [] := by
    rw [List.filter_eq_nil_iff]
    intro p hp
    simp [hf p hp]
  unfold aggregate_page_results
  rw [if_neg (by simp [hd])]
  dsimp only
  rw [hfe]
  rfl

/-- C8: when no entry of `page_results` has
`page_processing_status == "success"`, aggregation does not raise and
returns exactly the mapping `{error: "No pages were successfully
processed", page_results: <the input>, pages_processed: 0}`. -/
theorem c8_zero_success_aggregate (pr : List PyVal)
    (hd : pr.all isPyDict = true)
    (hf : ∀ p ∈ pr, isSuccessPage p = false) :
    aggregate_page_results pr =
      some (.dict [("error", .str "No pages were successfully processed"),
                   ("page_results", .list pr),
                   ("pages_processed", .int 0)]) :=
  aggregate_zero_success pr hd hf

/-- C8 witness at a concrete all-failed input. -/
theorem c8_zero_success_aggregate_witness :
    aggregate_page_results [failedEntry 1 "x"] =
      some (.dict [("error", .str "No pages were successfully processed"),
                   ("page_results", .list [failedEntry 1 "x"]),
                   ("pages_processed", .int 0)]) :=
  c8_zero_success_aggregate _ (by decide) (by decide)

/-- C7: once the shared `error` field is non-empty, every stage
(`extract_content`, `process_with_chatgpt`, `validate_result`)
returns the state unchanged, so the first error written is preserved
through the remaining stages; and the terminal output of
`process_document` is `{error: e}` exactly when the final state's
error is non-empty and the `processing_result` mapping otherwise. -/
theorem c7_error_short_circuit :
    (∀ (env : PipelineEnv) (s : DocumentState), s.error ≠ "" →
      extract_content_node env s = s ∧
      process_with_chatgpt_node env s = s ∧
      validate_result_node s = some s) ∧
    (∀ (env : PipelineEnv) (prompts : List (String × PyVal)),
      (extract_content_node env (initState prompts)).error ≠ "" →
      finalState env prompts = some (extract_content_node env (initState prompts))) ∧
    (∀ (env : PipelineEnv) (prompts : List (String × PyVal)),
      process_document env prompts =
        (finalState env prompts).map
          (fun s3 => if s3.error ≠ "" then PyVal.dict [("error", .str s3.error)]
                     else s3.processing_result)) := by
  have hnode : ∀ (env : PipelineEnv) (s : DocumentState), s.error ≠ "" →
      extract_content_node env s = s ∧
      process_with_chatgpt_node env s = s ∧
      validate_result_node s = some s := by
    intro env s h
    refine ⟨?_, ?_, ?_⟩
    · unfold extract_content_node; rw [if_pos h]
    · unfold process_with_chatgpt_node; rw [if_pos h]
    · unfold validate_result_node; rw [if_pos h]
  refine ⟨hnode, ?_, ?_⟩
  · intro env prompts h1
    unfold finalState
    rw [(hnode env _ h1).2.1, (hnode env _ h1).2.2]
  · intro env prompts
    unfold process_document
    cases finalState env prompts <;> rfl

/-- C7 witness: a concrete errored state passes through every stage
unchanged. -/
theorem c7_error_short_circuit_witness :
    extract_content_node
        ⟨.ok "t", .ok [], fun _ => .error "x", .error "x"⟩
        ⟨[], .dict [], [], 0, 0, "boom", "IMAGE_OCR", .bool false, ""⟩ =
      ⟨[], .dict [], [], 0, 0, "boom", "IMAGE_OCR", .bool false, ""⟩ ∧
    process_with_chatgpt_node
        ⟨.ok "t", .ok [], fun _ => .error "x", .error "x"⟩
        ⟨[], .dict [], [], 0, 0, "boom", "IMAGE_OCR", .bool false, ""⟩ =
      ⟨[], .dict [], [], 0, 0, "boom", "IMAGE_OCR", .bool false, ""⟩ ∧
    validate_result_node
        ⟨[], .dict [], [], 0, 0, "boom", "IMAGE_OCR", .bool false, ""⟩ =
      some ⟨[], .dict [], [], 0, 0, "boom", "IMAGE_OCR", .bool false, ""⟩ :=
  c7_error_short_circuit.1
    ⟨.ok "t", .ok [], fun _ => .error "x", .error "x"⟩
    ⟨[], .dict [], [], 0, 0, "boom", "IMAGE_OCR", .bool false, ""⟩
    (by decide)

theorem processPage_page_number (env : PipelineEnv) (i : Nat) :
    pageGet? (processPage env i) "page_number" = some (.int (i + 1)) := by
  unfold processPage
  cases env.llmImage i with
  | error e => rfl
  | ok content =>
    dsimp only
    generalize parse_chatgpt_response content = v
    cases v with
    | dict d =>
        show PyDict.get (PyDict.set (PyDict.set d "page_number" (.int (i + 1)))
          "page_processing_status" (.str "success")) "page_number" =
          some (.int (i + 1))
        rw [PyDict.get_set_ne _ _ _ _ (by decide), PyDict.get_set_self]
    | none => rfl
    | bool b => rfl
    | int n => rfl
    | float q => rfl
    | str s2 => rfl
    | list l => rfl

theorem range_map_getElem {α : Type} (f : Nat → α) (n i : Nat) (hi : i < n) :
    ((List.range n).map f)[i]? = some (f i) := by
  rw [List.getElem?_map, List.getElem?_range hi]
  rfl

/-- Shape of `process_with_chatgpt_node` in image mode with a
non-empty page list: the per-page loop runs to completion and only
the aggregation outcome differs. -/
theorem chatgpt_node_image_shape
    (env : PipelineEnv) (s : DocumentState) (imgs : List String)
    (herr : s.error = "") (hmode : s.processing_mode ≠ "TEXT_EXTRACTION")
    (himg : env.pdfToImages = .ok imgs) (hne : imgs ≠ []) :
    process_with_chatgpt_node env s =
      (match aggregate_page_results ((List.range imgs.length).map (processPage env)) with
       | some (.dict r) =>
          { s with total_pages := imgs.length,
                   page_results := (List.range imgs.length).map (processPage env),
                   current_page := imgs.length,
                   processing_result :=
                     PyVal.dict (PyDict.set r "processing_mode" (.str "IMAGE_OCR")) }
       | some v =>
          { s with total_pages := imgs.length,
                   page_results := (List.range imgs.length).map (processPage env),
                   current_page := imgs.length,
                   error := "ChatGPT processing failed: " ++ itemAssignMsg v }
       | Option.none =>
          { s with total_pages := imgs.length,
                   page_results := (List.range imgs.length).map (processPage env),
                   current_page := imgs.length,
                   error := "ChatGPT processing failed: " ++
                     aggRaiseMsg ((List.range imgs.length).map (processPage env)) }) := by
  have hie : imgs.isEmpty = false := by
    cases h2 : imgs with
    | nil => exact absurd h2 hne
    | cons a b => rfl
  have hpne : ((List.range imgs.length).map (processPage env)).isEmpty = false := by
    cases h2 : (List.range imgs.length).map (processPage env) with
    | cons a b => rfl
    | nil =>
        have hz : imgs.length = 0 := by
          have := congrArg List.length h2
          simpa using this
        exact absurd (List.length_eq_zero.mp hz) hne
  unfold process_with_chatgpt_node
  rw [if_neg (by simp [herr]), if_neg hmode, himg]
  dsimp only
  rw [if_neg (by simp [hie]), if_neg (by simp [hpne])]

/-- C6: in image mode, for a PDF that yields `N` page images and any
per-page LLM oracle, after the LLM stage `total_pages = N` and
`len(page_results) = N`, entry `i` carries `page_number = i + 1`, and
every page whose LLM call fails contributes exactly the
`{page_number, page_processing_status: "failed", error}` record while
the remaining pages are still processed. -/
theorem c6_image_mode_page_results
    (env : PipelineEnv) (s : DocumentState) (imgs : List String)
    (herr : s.error = "") (hmode : s.processing_mode ≠ "TEXT_EXTRACTION")
    (himg : env.pdfToImages = .ok imgs) (hne : imgs ≠ []) :
    (process_with_chatgpt_node env s).total_pages = imgs.length ∧
    (process_with_chatgpt_node env s).page_results.length = imgs.length ∧
    (∀ i, i < imgs.length →
      ((process_with_chatgpt_node env s).page_results[i]?).bind
        (fun p => pageGet? p "page_number") = some (.int (i + 1))) ∧
    (∀ i e, i < imgs.length → env.llmImage i = .error e →
      (process_with_chatgpt_node env s).page_results[i]? =
        some (failedEntry (i + 1) e)) := by
  have hfields : (process_with_chatgpt_node env s).total_pages = imgs.length ∧
      (process_with_chatgpt_node env s).page_results =
        (List.range imgs.length).map (processPage env) := by
    rw [chatgpt_node_image_shape env s imgs herr hmode himg hne]
    cases hagg : aggregate_page_results ((List.range imgs.length).map (processPage env)) with
    | none => exact ⟨rfl, rfl⟩
    | some v => cases v <;> exact ⟨rfl, rfl⟩
  refine ⟨hfields.1, ?_, ?_, ?_⟩
  · rw [hfields.2]
    simp
  · intro i hi
    rw [hfields.2, range_map_getElem _ _ _ hi]
    exact processPage_page_number env i
  · intro i e hi hllm
    rw [hfields.2, range_map_getElem _ _ _ hi]
    unfold processPage
    rw [hllm]

/-- C6 witness: a concrete two-page run in which page 1 parses and
page 2's LLM call fails. -/
theorem c6_image_mode_page_results_witness :
    (process_with_chatgpt_node
        ⟨.ok "t", .ok ["i1", "i2"],
         fun i => if i = 0 then .ok "\x7b\x7d" else .error "boom", .error "x"⟩
        (initState [])).total_pages = ["i1", "i2"].length ∧
    (process_with_chatgpt_node
        ⟨.ok "t", .ok ["i1", "i2"],
         fun i => if i = 0 then .ok "\x7b\x7d" else .error "boom", .error "x"⟩
        (initState [])).page_results.length = ["i1", "i2"].length ∧
    (∀ i, i < ["i1", "i2"].length →
      ((process_with_chatgpt_node
          ⟨.ok "t", .ok ["i1", "i2"],
           fun i => if i = 0 then .ok "\x7b\x7d" else .error "boom", .error "x"⟩
          (initState [])).page_results[i]?).bind
        (fun p => pageGet? p "page_number") = some (.int (i + 1))) ∧
    (∀ i e, i < ["i1", "i2"].length →
      (if i = 0 then Except.ok "\x7b\x7d" else Except.error "boom") = .error e →
      (process_with_chatgpt_node
          ⟨.ok "t", .ok ["i1", "i2"],
           fun i => if i = 0 then .ok "\x7b\x7d" else .error "boom", .error "x"⟩
          (initState [])).page_results[i]? =
        some (failedEntry (i + 1) e)) :=
  c6_image_mode_page_results
    ⟨.ok "t", .ok ["i1", "i2"],
     fun i => if i = 0 then .ok "\x7b\x7d" else .error "boom", .error "x"⟩
    (initState []) ["i1", "i2"] (by decide) (by decide) rfl (by decide)

theorem itemErrors_mem {d : List (String × PyVal)} {f : String} {v : PyVal}
    (i : Nat) (hf : f ∈ numericFields) (hget : PyDict.get d f = some v)
    (hinv : isValidNumber v = false) :
    ("Item " ++ toString (i + 1) ++ ": Invalid " ++ f ++ " value: " ++ pyStr v) ∈
      itemErrors i (.dict d) := by
  unfold itemErrors
  apply List.mem_filterMap.mpr
  refine ⟨f, hf, ?_⟩
  rw [hget]
  simp [hinv]

theorem itemErrorsFrom_mem :
    ∀ (items : List PyVal) (start i : Nat) (item : PyVal) (msg : String),
      items[i]? = some item → msg ∈ itemErrors (start + i) item →
      msg ∈ itemErrorsFrom start items := by
  intro items
  induction items with
  | nil => intro start i item msg h _; simp at h
  | cons a t ih =>
      intro start i item msg h hmsg
      cases i with
      | zero =>
          have ha : a = item := by simpa using h
          subst ha
          unfold itemErrorsFrom
          exact List.mem_append_left _ (by simpa using hmsg)
      | succ j =>
          unfold itemErrorsFrom
          apply List.mem_append_right
          rw [show start + (j + 1) = (start + 1) + j by omega] at hmsg
          exact ih (start + 1) j item msg (by simpa using h) hmsg

theorem performVerification_mem {d a : List (String × PyVal)}
    {items : List PyVal} {msg : String}
    (hact : PyDict.get d "act" = some (.dict a))
    (hitems : PyDict.get a "items" = some (.list items))
    (hmem : msg ∈ itemErrorsFrom 0 items) :
    msg ∈ performVerification (.dict d) := by
  unfold performVerification
  dsimp only
  rw [hact]
  dsimp only
  rw [hitems]
  dsimp only
  exact List.mem_append_left _ hmem

theorem missingFieldErrors_isSome (d : List (String × PyVal)) :
    ∀ (rf : List PyVal), ∃ es, missingFieldErrors (.dict d) rf = some es := by
  intro rf
  induction rf with
  | nil => exact ⟨[], rfl⟩
  | cons f fs ih =>
      obtain ⟨es, hes⟩ := ih
      cases hb : fieldMissing f (.dict d) with
      | none => exact absurd hb (by simp [fieldMissing])
      | some b =>
          cases b with
          | true =>
              refine ⟨("Missing required field: " ++ pyStr f) :: es, ?_⟩
              unfold missingFieldErrors
              rw [hb, hes]
              rfl
          | false =>
              refine ⟨es, ?_⟩
              unfold missingFieldErrors
              rw [hb]
              exact hes

theorem missingFieldErrors_mem (d : List (String × PyVal)) (f : String)
    (hmiss : PyDict.get d f = Option.none) :
    ∀ (rf : List PyVal) (es : List String),
      missingFieldErrors (.dict d) rf = some es → (.str f) ∈ rf →
      ("Missing required field: " ++ f) ∈ es := by
  intro rf
  induction rf with
  | nil => intro es _ hmem; simp at hmem
  | cons g gs ih =>
      intro es h hmem
      unfold missingFieldErrors at h
      rcases List.mem_cons.mp hmem with he | hmem2
      · subst he
        have hb : fieldMissing (.str f) (.dict d) = some true := by
          simp [fieldMissing, hmiss]
        rw [hb] at h
        cases hrec : missingFieldErrors (.dict d) gs with
        | none => rw [hrec] at h; exact Option.noConfusion h
        | some es2 =>
            rw [hrec] at h
            have : ("Missing required field: " ++ pyStr (.str f)) :: es2 = es := by
              simpa using h
            rw [← this]
            exact List.mem_cons_self _ _
      · cases hb : fieldMissing g (.dict d) with
        | none => rw [hb] at h; exact Option.noConfusion h
        | some b =>
            rw [hb] at h
            cases b with
            | true =>
                cases hrec : missingFieldErrors (.dict d) gs with
                | none => rw [hrec] at h; exact Option.noConfusion h
                | some es2 =>
                    rw [hrec] at h
                    have he2 : ("Missing required field: " ++ pyStr g) :: es2 = es := by
                      simpa using h
                    rw [← he2]
                    exact List.mem_cons_of_mem _ (ih es2 hrec hmem2)
            | false => exact ih es h hmem2

theorem validate_result_node_dict (s : DocumentState)
    (d : List (String × PyVal)) (rf : List PyVal) (es : List String)
    (herr : s.error = "") (hpr : s.processing_result = .dict d)
    (htr : pyTruthy (.dict d) = true)
    (hrf : pyIterElems ((PyDict.get s.file_type_prompts "required_fields").getD
      (.list [])) = some rf)
    (hes : missingFieldErrors (.dict d) rf = some es) :
    validate_result_node s = some { s with processing_result :=
      (if (es ++ (if pyTruthy s.verification_enabled = true
                  then performVerification (.dict d) else [])).isEmpty
       then PyVal.dict (PyDict.set d "verification_performed" s.verification_enabled)
       else PyVal.dict (PyDict.set
              (PyDict.set d "validation_errors"
                (.list ((es ++ (if pyTruthy s.verification_enabled = true
                    then performVerification (.dict d) else [])).map .str)))
              "verification_performed" s.verification_enabled)) } := by
  unfold validate_result_node
  rw [if_neg (by simp [herr]), if_neg (by simp [hpr, htr]), hrf]
  dsimp only
  rw [hpr, hes]
  dsimp only
  by_cases hae : (es ++ (if pyTruthy s.verification_enabled = true
      then performVerification (.dict d) else [])).isEmpty = true
  · simp only [if_pos hae]
    rfl
  · simp only [if_neg hae]
    rfl

/-- C9: with verification enabled, validating a result whose
`act.items` holds an item with a non-numeric value in one of the
numeric fields appends a verification error naming that item's
1-based index and the field; and in every validation run that reaches
the stamping (no prior error, truthy result, iterable
`required_fields`), the result receives
`verification_performed = verification_enabled` whether or not any
errors were found. Verification itself never raises — the embedding
of `perform_verification` is a total function whose exception paths
are internal entries. -/
theorem c9_verification :
    (∀ (s : DocumentState) (d : List (String × PyVal)) (rf : List PyVal),
      s.error = "" → s.processing_result = .dict d → pyTruthy (.dict d) = true →
      pyIterElems ((PyDict.get s.file_type_prompts "required_fields").getD
        (.list [])) = some rf →
      ∃ (s2 : DocumentState) (d2 : List (String × PyVal)),
        validate_result_node s = some s2 ∧
        s2.processing_result = .dict d2 ∧
        PyDict.get d2 "verification_performed" = some s.verification_enabled) ∧
    (∀ (s : DocumentState) (d a idict : List (String × PyVal))
        (items : List PyVal) (i : Nat) (f : String) (v : PyVal) (rf : List PyVal),
      s.error = "" → s.processing_result = .dict d → pyTruthy (.dict d) = true →
      pyIterElems ((PyDict.get s.file_type_prompts "required_fields").getD
        (.list [])) = some rf →
      pyTruthy s.verification_enabled = true →
      PyDict.get d "act" = some (.dict a) →
      PyDict.get a "items" = some (.list items) →
      items[i]? = some (.dict idict) →
      f ∈ numericFields →
      PyDict.get idict f = some v →
      isValidNumber v = false →
      ∃ (s2 : DocumentState) (d2 : List (String × PyVal)) (ve : List PyVal),
        validate_result_node s = some s2 ∧
        s2.processing_result = .dict d2 ∧
        PyDict.get d2 "verification_performed" = some s.verification_enabled ∧
        PyDict.get d2 "validation_errors" = some (.list ve) ∧
        (.str ("Item " ++ toString (i + 1) ++ ": Invalid " ++ f ++
          " value: " ++ pyStr v)) ∈ ve) := by
  constructor
  · intro s d rf herr hpr htr hrf
    obtain ⟨es, hes⟩ := missingFieldErrors_isSome d rf
    rw [validate_result_node_dict s d rf es herr hpr htr hrf hes]
    by_cases hae : (es ++ (if pyTruthy s.verification_enabled = true
        then performVerification (.dict d) else [])).isEmpty = true
    · refine ⟨_, PyDict.set d "verification_performed" s.verification_enabled,
        rfl, ?_, ?_⟩
      · simp only [if_pos hae]
      · exact PyDict.get_set_self _ _ _
    · refine ⟨_, PyDict.set
        (PyDict.set d "validation_errors"
          (.list ((es ++ (if pyTruthy s.verification_enabled = true
              then performVerification (.dict d) else [])).map .str)))
        "verification_performed" s.verification_enabled, rfl, ?_, ?_⟩
      · simp only [if_neg hae]
      · exact PyDict.get_set_self _ _ _
  · intro s d a idict items i f v rf herr hpr htr hrf hver hact hitems hitem hf hget hinv
    obtain ⟨es, hes⟩ := missingFieldErrors_isSome d rf
    have hmsg : ("Item " ++ toString (i + 1) ++ ": Invalid " ++ f ++
        " value: " ++ pyStr v) ∈ performVerification (.dict d) :=
      performVerification_mem hact hitems
        (itemErrorsFrom_mem items 0 i (.dict idict) _ hitem
          (by simpa using itemErrors_mem i hf hget hinv))
    have hiff : (if pyTruthy s.verification_enabled = true
        then performVerification (.dict d) else []) = performVerification (.dict d) :=
      if_pos hver
    have hmem_all : ("Item " ++ toString (i + 1) ++ ": Invalid " ++ f ++
        " value: " ++ pyStr v) ∈
        es ++ (if pyTruthy s.verification_enabled = true
          then performVerification (.dict d) else []) := by
      rw [hiff]
      exact List.mem_append_right _ hmsg
    have hae : (es ++ (if pyTruthy s.verification_enabled = true
        then performVerification (.dict d) else [])).isEmpty = false := by
      cases h2 : es ++ (if pyTruthy s.verification_enabled = true
          then performVerification (.dict d) else []) with
      | nil => rw [h2] at hmem_all; simp at hmem_all
      | cons x xs => rfl
    rw [validate_result_node_dict s d rf es herr hpr htr hrf hes]
    refine ⟨_, PyDict.set
      (PyDict.set d "validation_errors"
        (.list ((es ++ (if pyTruthy s.verification_enabled = true
            then performVerification (.dict d) else [])).map .str)))
      "verification_performed" s.verification_enabled,
      (es ++ (if pyTruthy s.verification_enabled = true
        then performVerification (.dict d) else [])).map PyVal.str,
      rfl, ?_, ?_, ?_, ?_⟩
    · simp only [hae, Bool.false_eq_true, if_false]
    · exact PyDict.get_set_self _ _ _
    · rw [PyDict.get_set_ne _ _ _ _ (by decide)]
      exact PyDict.get_set_self _ _ _
    · exact List.mem_map_of_mem _ hmem_all

/-- C9 witness: a concrete run with `verification_enabled = True` and
an item whose `total_cost` is the non-numeric string `"abc"`. -/
theorem c9_verification_witness :
    ∃ (s2 : DocumentState) (d2 : List (String × PyVal)) (ve : List PyVal),
      validate_result_node
        ⟨[("required_fields", .list [])],
         .dict [("act", .dict [("items",
            .list [.dict [("total_cost", .str "abc")]])])],
         [], 0, 0, "", "IMAGE_OCR", .bool true, ""⟩ = some s2 ∧
      s2.processing_result = .dict d2 ∧
      PyDict.get d2 "verification_performed" = some (.bool true) ∧
      PyDict.get d2 "validation_errors" = some (.list ve) ∧
      (.str ("Item " ++ toString (0 + 1) ++ ": Invalid " ++ "total_cost" ++
        " value: " ++ pyStr (.str "abc"))) ∈ ve :=
  c9_verification.2
    ⟨[("required_fields", .list [])],
     .dict [("act", .dict [("items",
        .list [.dict [("total_cost", .str "abc")]])])],
     [], 0, 0, "", "IMAGE_OCR", .bool true, ""⟩
    [("act", .dict [("items", .list [.dict [("total_cost", .str "abc")]])])]
    [("items", .list [.dict [("total_cost", .str "abc")]])]
    [("total_cost", .str "abc")]
    [.dict [("total_cost", .str "abc")]]
    0 "total_cost" (.str "abc") []
    rfl rfl (by decide) (by decide) (by decide) (by decide) (by decide)
    (by decide) (by decide) (by decide) (by decide)

/-- C10: in image mode, when every page fails, the pipeline's shared
error field stays empty: the aggregator's error mapping flows through
the normal result channel, so `process_document` returns (not as the
`{error: string}` shape) a mapping carrying
`error = "No pages were successfully processed"`,
`processing_mode = "IMAGE_OCR"`, a `verification_performed` stamp
equal to the configured flag, and — when a configured required field
is absent from that mapping — a `validation_errors` entry naming it. -/
theorem c10_all_failed_pipeline
    (env : PipelineEnv) (prompts : List (String × PyVal)) (imgs : List String)
    (errs : Nat → String) (rf : List PyVal)
    (hmode : (PyDict.get prompts "processing_mode").getD (.str "IMAGE_OCR") ≠
      .str "TEXT_EXTRACTION")
    (himg : env.pdfToImages = .ok imgs) (hne : imgs ≠ [])
    (hllm : ∀ i, env.llmImage i = .error (errs i))
    (hrf : pyIterElems ((PyDict.get prompts "required_fields").getD (.list [])) =
      some rf) :
    ∃ (s3 : DocumentState) (d : List (String × PyVal)),
      finalState env prompts = some s3 ∧
      s3.error = "" ∧
      process_document env prompts = some s3.processing_result ∧
      s3.processing_result = .dict d ∧
      PyDict.get d "error" = some (.str "No pages were successfully processed") ∧
      PyDict.get d "processing_mode" = some (.str "IMAGE_OCR") ∧
      PyDict.get d "verification_performed" =
        some ((PyDict.get prompts "verification_enabled").getD (.bool false)) ∧
      (∀ fname : String, (.str fname) ∈ rf →
        fname ∉ (["error", "page_results", "pages_processed",
          "processing_mode"] : List String) →
        ∃ ve, PyDict.get d "validation_errors" = some (.list ve) ∧
          (.str ("Missing required field: " ++ fname)) ∈ ve) := by
  have hs1 : extract_content_node env (initState prompts) =
      { initState prompts with
          processing_mode := "IMAGE_OCR",
          extracted_text := "",
          verification_enabled :=
            (PyDict.get prompts "verification_enabled").getD (.bool false) } := by
    unfold extract_content_node
    rw [if_neg (by simp [initState]), if_neg (by exact hmode)]
    rfl
  have hpage : ∀ i, processPage env i = failedEntry (i + 1) (errs i) := by
    intro i
    unfold processPage
    rw [hllm i]
  have hfail : ∀ p ∈ (List.range imgs.length).map (processPage env),
      isSuccessPage p = false := by
    intro p hp
    obtain ⟨i, _, hpi⟩ := List.mem_map.mp hp
    rw [← hpi, hpage i]
    rfl
  have hall : ((List.range imgs.length).map (processPage env)).all isPyDict = true := by
    rw [List.all_eq_true]
    intro p hp
    obtain ⟨i, _, hpi⟩ := List.mem_map.mp hp
    rw [← hpi, hpage i]
    rfl
  have hagg := aggregate_zero_success _ hall hfail
  have hs2 : process_with_chatgpt_node env (extract_content_node env (initState prompts)) =
      { initState prompts with
        processing_mode := "IMAGE_OCR", extracted_text := "",
        verification_enabled :=
          (PyDict.get prompts "verification_enabled").getD (.bool false),
        total_pages := imgs.length,
        page_results := (List.range imgs.length).map (processPage env),
        current_page := imgs.length,
        processing_result := .dict
          [("error", .str "No pages were successfully processed"),
           ("page_results", .list ((List.range imgs.length).map (processPage env))),
           ("pages_processed", .int 0),
           ("processing_mode", .str "IMAGE_OCR")] } := by
    rw [hs1]
    rw [chatgpt_node_image_shape env _ imgs rfl (by simp) himg hne]
    rw [hagg]
    rfl
  obtain ⟨es, hes⟩ := missingFieldErrors_isSome
    [("error", .str "No pages were successfully processed"),
     ("page_results", .list ((List.range imgs.length).map (processPage env))),
     ("pages_processed", .int 0),
     ("processing_mode", .str "IMAGE_OCR")] rf
  have hval := validate_result_node_dict
    (s := { initState prompts with
        processing_mode := "IMAGE_OCR", extracted_text := "",
        verification_enabled :=
          (PyDict.get prompts "verification_enabled").getD (.bool false),
        total_pages := imgs.length,
        page_results := (List.range imgs.length).map (processPage env),
        current_page := imgs.length,
        processing_result := .dict
          [("error", .str "No pages were successfully processed"),
           ("page_results", .list ((List.range imgs.length).map (processPage env))),
           ("pages_processed", .int 0),
           ("processing_mode", .str "IMAGE_OCR")] })
    (d := [("error", .str "No pages were successfully processed"),
           ("page_results", .list ((List.range imgs.length).map (processPage env))),
           ("pages_processed", .int 0),
           ("processing_mode", .str "IMAGE_OCR")])
    rf es rfl rfl rfl hrf hes
  have hfs : finalState env prompts = validate_result_node
      { initState prompts with
        processing_mode := "IMAGE_OCR", extracted_text := "",
        verification_enabled :=
          (PyDict.get prompts "verification_enabled").getD (.bool false),
        total_pages := imgs.length,
        page_results := (List.range imgs.length).map (processPage env),
        current_page := imgs.length,
        processing_result := .dict
          [("error", .str "No pages were successfully processed"),
           ("page_results", .list ((List.range imgs.length).map (processPage env))),
           ("pages_processed", .int 0),
           ("processing_mode", .str "IMAGE_OCR")] } := by
    unfold finalState
    rw [hs2]
  rw [hval] at hfs
  -- abbreviations for the two possible final result dictionaries
  by_cases hae : (es ++ (if pyTruthy ((PyDict.get prompts
      "verification_enabled").getD (.bool false)) = true
      then performVerification (.dict
        [("error", .str "No pages were successfully processed"),
         ("page_results", .list ((List.range imgs.length).map (processPage env))),
         ("pages_processed", .int 0),
         ("processing_mode", .str "IMAGE_OCR")]) else [])).isEmpty = true
  · -- no validation errors: the missing-field conjunct is vacuous
    refine ⟨_, PyDict.set
        [("error", .str "No pages were successfully processed"),
         ("page_results", .list ((List.range imgs.length).map (processPage env))),
         ("pages_processed", .int 0),
         ("processing_mode", .str "IMAGE_OCR")]
        "verification_performed"
        ((PyDict.get prompts "verification_enabled").getD (.bool false)),
      hfs, rfl, ?_, ?_, ?_, ?_, ?_, ?_⟩
    · unfold process_document
      rw [hfs]
      rfl
    · simp only [if_pos hae]
    · rw [PyDict.get_set_ne _ _ _ _ (by decide)]; rfl
    · rw [PyDict.get_set_ne _ _ _ _ (by decide)]; rfl
    · exact PyDict.get_set_self _ _ _
    · intro fname hmem hnot
      exfalso
      have h1 : "error" ≠ fname := fun h => hnot (by simp [← h])
      have h2 : "page_results" ≠ fname := fun h => hnot (by simp [← h])
      have h3 : "pages_processed" ≠ fname := fun h => hnot (by simp [← h])
      have h4 : "processing_mode" ≠ fname := fun h => hnot (by simp [← h])
      have hnone : PyDict.get
          [("error", .str "No pages were successfully processed"),
           ("page_results", .list ((List.range imgs.length).map (processPage env))),
           ("pages_processed", .int 0),
           ("processing_mode", .str "IMAGE_OCR")] fname = Option.none := by
        simp [PyDict.get, h1, h2, h3, h4]
      have hmsg := missingFieldErrors_mem _ fname hnone rf es hes hmem
      have : es ≠ [] := List.ne_nil_of_mem hmsg
      cases h2e : es with
      | nil => exact this h2e
      | cons x xs => rw [h2e] at hae; simp at hae
  · refine ⟨_, PyDict.set
        (PyDict.set
          [("error", .str "No pages were successfully processed"),
           ("page_results", .list ((List.range imgs.length).map (processPage env))),
           ("pages_processed", .int 0),
           ("processing_mode", .str "IMAGE_OCR")]
          "validation_errors"
          (.list ((es ++ (if pyTruthy ((PyDict.get prompts
              "verification_enabled").getD (.bool false)) = true
              then performVerification (.dict
                [("error", .str "No pages were successfully processed"),
                 ("page_results", .list ((List.range imgs.length).map (processPage env))),
                 ("pages_processed", .int 0),
                 ("processing_mode", .str "IMAGE_OCR")]) else [])).map .str)))
        "verification_performed"
        ((PyDict.get prompts "verification_enabled").getD (.bool false)),
      hfs, rfl, ?_, ?_, ?_, ?_, ?_, ?_⟩
    · unfold process_document
      rw [hfs]
      rfl
    · simp only [if_neg hae]
    · rw [PyDict.get_set_ne _ _ _ _ (by decide),
          PyDict.get_set_ne _ _ _ _ (by decide)]; rfl
    · rw [PyDict.get_set_ne _ _ _ _ (by decide),
          PyDict.get_set_ne _ _ _ _ (by decide)]; rfl
    · exact PyDict.get_set_self _ _ _
    · intro fname hmem hnot
      have h1 : "error" ≠ fname := fun h => hnot (by simp [← h])
      have h2 : "page_results" ≠ fname := fun h => hnot (by simp [← h])
      have h3 : "pages_processed" ≠ fname := fun h => hnot (by simp [← h])
      have h4 : "processing_mode" ≠ fname := fun h => hnot (by simp [← h])
      have hnone : PyDict.get
          [("error", .str "No pages were successfully processed"),
           ("page_results", .list ((List.range imgs.length).map (processPage env))),
           ("pages_processed", .int 0),
           ("processing_mode", .str "IMAGE_OCR")] fname = Option.none := by
        simp [PyDict.get, h1, h2, h3, h4]
      have hmsg := missingFieldErrors_mem _ fname hnone rf es hes hmem
      refine ⟨(es ++ (if pyTruthy ((PyDict.get prompts
          "verification_enabled").getD (.bool false)) = true
          then performVerification (.dict
            [("error", .str "No pages were successfully processed"),
             ("page_results", .list ((List.range imgs.length).map (processPage env))),
             ("pages_processed", .int 0),
             ("processing_mode", .str "IMAGE_OCR")]) else [])).map PyVal.str,
        ?_, ?_⟩
      · rw [PyDict.get_set_ne _ _ _ _ (by decide)]
        exact PyDict.get_set_self _ _ _
      · exact List.mem_map_of_mem _ (List.mem_append_left _ hmsg)

/-- C10 witness: one page, failing LLM call, a configured required
field `customer`. -/
theorem c10_all_failed_pipeline_witness :
    ∃ (s3 : DocumentState) (d : List (String × PyVal)),
      finalState ⟨.ok "t", .ok ["i"], fun _ => .error "boom", .error "x"⟩
          [("required_fields", .list [.str "customer"])] = some s3 ∧
      s3.error = "" ∧
      process_document ⟨.ok "t", .ok ["i"], fun _ => .error "boom", .error "x"⟩
          [("required_fields", .list [.str "customer"])] =
        some s3.processing_result ∧
      s3.processing_result = .dict d ∧
      PyDict.get d "error" = some (.str "No pages were successfully processed") ∧
      PyDict.get d "processing_mode" = some (.str "IMAGE_OCR") ∧
      PyDict.get d "verification_performed" =
        some ((PyDict.get [("required_fields", PyVal.list [.str "customer"])]
          "verification_enabled").getD (.bool false)) ∧
      (∀ fname : String, (.str fname) ∈ ([.str "customer"] : List PyVal) →
        fname ∉ (["error", "page_results", "pages_processed",
          "processing_mode"] : List String) →
        ∃ ve, PyDict.get d "validation_errors" = some (.list ve) ∧
          (.str ("Missing required field: " ++ fname)) ∈ ve) :=
  c10_all_failed_pipeline
    ⟨.ok "t", .ok ["i"], fun _ => .error "boom", .error "x"⟩
    [("required_fields", .list [.str "customer"])]
    ["i"] (fun _ => "boom") [.str "customer"]
    (by decide) rfl (by decide) (fun i => rfl) (by decide)
